import Mathlib

/-!
# Nielsen: verification of the filename-inference and series-resolution core

A shallow embedding of the Nielsen TV-episode renamer.  The embedding covers:

* the Python string primitives used by the code (`str.strip`, `str.title`,
  `str.islower`, `string.capwords`, `str.zfill`, `int(...)`, `str(...)`),
  restricted to ASCII text, which is the domain of every filename pattern here;
* a backtracking regular-expression engine faithful to the CPython `re`
  semantics for the constructs the source patterns use (greedy/lazy repetition,
  alternation order, named groups with last-match capture, `$`, `re.IGNORECASE`),
  and the exact pattern lists of `nielsen/api.py` (`get_file_info`) and
  `nielsen/media.py` (`TV._load_patterns`);
* the legacy inference pipeline `api.get_file_info` / `api.filter_series` /
  `api.process_file`;
* the `media.py` model: `TV.metadata` setter, `Media.transform`, `TV.__str__`,
  `Media.rename` and `Media.organize` over an explicit filesystem map, and
  `processor.Processor.process`;
* the `fetcher.py` model: a `ConfigParser` state (`tvmaze/ids` cache section,
  lowercased option keys, default-section fallthrough), a JSON value type, and
  `TVMaze.get_series_id` / `get_series_id_search` / `get_series_id_singlesearch`
  / `get_episode_title` / `fetch` over an explicit remote world, with network
  requests counted.
-/

namespace Nielsen

/-! ## Python string primitives (ASCII fragment) -/

/-- The apostrophe character, built by code point. -/
def apos : Char := Char.ofNat 39

/-- Python `str.isspace` on the ASCII range: space, tab, newline, carriage
return, vertical tab, form feed. -/
def pyIsSpace (c : Char) : Bool :=
  c == ' ' || c == '\t' || c == '\n' || c == '\r' || c == Char.ofNat 11 || c == Char.ofNat 12

/-- Python `str.strip()` (no argument): remove leading and trailing whitespace. -/
def pyStripL (s : List Char) : List Char := s.dropWhile pyIsSpace

def pyStrip (s : String) : String :=
  String.mk ((pyStripL s.toList.reverse).reverse |> pyStripL)

/-- `str.replace('.', ' ')`, the only replacement the source performs. -/
def replaceDotSpace (s : String) : String :=
  String.mk (s.toList.map (fun c => if c == '.' then ' ' else c))

/-- ASCII cased character (Python distinguishes cased/uncased; on ASCII the
cased characters are exactly the letters). -/
def casedCh (c : Char) : Bool := c.isAlpha

def lowerCh (c : Char) : Char := c.toLower
def upperCh (c : Char) : Char := c.toUpper

/-- Python `str.lower()`. -/
def pyLower (s : String) : String := String.mk (s.toList.map lowerCh)

/-- Python `str.islower()`: at least one cased character and no upper-case
character. -/
def pyIsLower (s : String) : Bool :=
  s.toList.any casedCh && s.toList.all (fun c => !(c.isUpper))

/-- Python `str.title()`: upper-case every cased character that follows a
non-cased character, lower-case every cased character that follows a cased
character.  (This is the variant that turns letters after an apostrophe into
upper case.) -/
def pyTitleL : List Char → Bool → List Char
  | [], _ => []
  | c :: rest, prevCased =>
      if casedCh c then
        (if prevCased then lowerCh c else upperCh c) :: pyTitleL rest true
      else
        c :: pyTitleL rest false

def pyTitle (s : String) : String := String.mk (pyTitleL s.toList false)

/-- Python `str.split()` with no argument: split on runs of whitespace,
discarding empty pieces. -/
def pySplitL (s : List Char) : List (List Char) :=
  (s.splitOnP pyIsSpace).filter (fun w => !w.isEmpty)

/-- Python `str.capitalize()`: first character upper-cased, the rest
lower-cased. -/
def pyCapitalizeL : List Char → List Char
  | [] => []
  | c :: rest => upperCh c :: rest.map lowerCh

/-- `string.capwords(s)`: `' '.join(x.capitalize() for x in s.split())`. -/
def pyCapwords (s : String) : String :=
  String.intercalate " " ((pySplitL s.toList).map (fun w => String.mk (pyCapitalizeL w)))

/-- Python `str.zfill(width)`: left-pad with zeros to the given width, keeping
a leading sign in front of the padding. -/
def pyZfill (s : String) (width : Nat) : String :=
  let cs := s.toList
  if width ≤ cs.length then s
  else
    match cs with
    | c :: rest =>
        if c == '+' || c == '-' then
          String.mk (c :: List.replicate (width - cs.length) '0' ++ rest)
        else String.mk (List.replicate (width - cs.length) '0' ++ cs)
    | [] => String.mk (List.replicate width '0')

/-- One step of decimal accumulation. -/
def digitStep (acc : Option Nat) (c : Char) : Option Nat :=
  match acc with
  | none => none
  | some n => if c.isDigit then some (n * 10 + (c.toNat - 48)) else none

/-- Decimal digits to a number; `none` when the list is empty or contains a
non-digit. -/
def digitsToNat? : List Char → Option Nat
  | [] => none
  | cs => cs.foldl digitStep (some 0)

/-- Python `int(s)` on a decimal string: surrounding whitespace is allowed, an
optional sign, then digits; anything else raises `ValueError` (`none` here). -/
def pyInt? (s : String) : Option Int :=
  match (pyStrip s).toList with
  | [] => none
  | c :: rest =>
      if c == '+' then (digitsToNat? rest).map Int.ofNat
      else if c == '-' then (digitsToNat? rest).map (fun n => -(Int.ofNat n))
      else (digitsToNat? (c :: rest)).map Int.ofNat

/-- The most-significant-first decimal digits of a natural number (the spine
of `Nat.repr`). -/
def natDigits (n : Nat) : List Char :=
  if _h : n < 10 then [Nat.digitChar n]
  else natDigits (n / 10) ++ [Nat.digitChar (n % 10)]
  termination_by n
  decreasing_by exact Nat.div_lt_self (by omega) (by omega)

/-- `int(metadata.get(k, 0))` where the source guarantees a digit capture:
parse, defaulting to 0 (the failure case would raise in Python and is not
reachable from the group captures `\d…`). -/
def pyIntOr0 (s : String) : Int := (pyInt? s).getD 0

/-- Python `s.isnumeric()` on the ASCII range: non-empty and all digits. -/
def pyIsNumeric (s : String) : Bool :=
  !s.toList.isEmpty && s.toList.all Char.isDigit

/-- Python slice `s[a:b]`. -/
def pySlice (s : String) (a b : Nat) : String :=
  String.mk ((s.toList.drop a).take (b - a))

/-- Python slice `s[a:]`. -/
def pySliceFrom (s : String) (a : Nat) : String :=
  String.mk (s.toList.drop a)

/-- `f"{n:02d}"`: decimal, left-padded with zeros to width 2 (the sign, if any,
counts toward the width). -/
def fmt02 (n : Int) : String := pyZfill (toString n) 2

/-! ## A backtracking regular-expression engine

Faithful to CPython `re` for the constructs the source patterns use:
concatenation, alternation (left branch preferred), greedy and lazy counted
repetition with backtracking, single-character predicates (`.`, `\d`, `\w`,
`\s`, literals, negated classes), named groups capturing the consumed
substring, and `$` (end of input, or just before a final newline).  The
matcher is written in continuation-passing style; the first success in
backtracking order is returned, exactly as in CPython.  `fuel` bounds the
recursion depth (not the amount of backtracking); the concrete evaluations
below stay far under it. -/

/-- Named-group captures, most recent first (`setCap` overwrites). -/
abbrev Caps := List (String × String)

def setCap (caps : Caps) (n : String) (v : String) : Caps :=
  (n, v) :: caps.filter (fun p => p.1 != n)

def capLookup (caps : Caps) (n : String) : Option String :=
  (caps.find? (fun p => p.1 == n)).map Prod.snd

/-- `m.groupdict(default=d)` for a pattern whose named groups are `names`. -/
def groupdictD (names : List String) (caps : Caps) (d : String) : Caps :=
  names.map (fun n => (n, (capLookup caps n).getD d))

/-- Python dict `.get(k, d)` on a capture dictionary. -/
def capGetD (caps : Caps) (n : String) (d : String) : String :=
  (capLookup caps n).getD d

inductive RE where
  | eps
  | pred (p : Char → Bool)
  | seq (a b : RE)
  | alt (a b : RE)
  | group (n : String) (r : RE)
  | rep (lo : Nat) (hi : Option Nat) (greedy : Bool) (r : RE)
  | eol

/-- The matcher.  `k` is the success continuation, receiving the remaining
input and the captures; the polymorphic result lets callers either keep the
captures only, or also the remaining input (for `re.sub`). -/
def reMatch {σ : Type} :
    Nat → RE → List Char → Caps → (List Char → Caps → Option σ) → Option σ
  | 0, _, _, _, _ => none
  | _ + 1, .eps, s, caps, k => k s caps
  | _ + 1, .pred p, s, caps, k =>
      match s with
      | [] => none
      | c :: rest => if p c then k rest caps else none
  | fuel + 1, .seq a b, s, caps, k =>
      reMatch fuel a s caps (fun s2 caps2 => reMatch fuel b s2 caps2 k)
  | fuel + 1, .alt a b, s, caps, k =>
      match reMatch fuel a s caps k with
      | some r => some r
      | none => reMatch fuel b s caps k
  | fuel + 1, .group n r, s, caps, k =>
      reMatch fuel r s caps
        (fun s2 caps2 => k s2 (setCap caps2 n (String.mk (s.take (s.length - s2.length)))))
  | fuel + 1, .rep lo hi greedy r, s, caps, k =>
      match lo with
      | m + 1 =>
          reMatch fuel r s caps
            (fun s2 caps2 => reMatch fuel (.rep m (hi.map (· - 1)) greedy r) s2 caps2 k)
      | 0 =>
          match hi with
          | some 0 => k s caps
          | _ =>
            if greedy then
              match reMatch fuel r s caps
                  (fun s2 caps2 => reMatch fuel (.rep 0 (hi.map (· - 1)) greedy r) s2 caps2 k) with
              | some v => some v
              | none => k s caps
            else
              match k s caps with
              | some v => some v
              | none =>
                reMatch fuel r s caps
                  (fun s2 caps2 => reMatch fuel (.rep 0 (hi.map (· - 1)) greedy r) s2 caps2 k)
  | _ + 1, .eol, s, caps, k =>
      match s with
      | [] => k s caps
      | ['\n'] => k s caps
      | _ => none

/-- `.` (any character except newline, no DOTALL anywhere in the source). -/
def anyCh : Char → Bool := fun c => c != '\n'
/-- `\d` (ASCII). -/
def digitCh : Char → Bool := fun c => c.isDigit
/-- `\w` (ASCII). -/
def wordCh : Char → Bool := fun c => c.isAlphanum || c == '_'
/-- `\s` (ASCII). -/
def spaceCh : Char → Bool := pyIsSpace

def rchar (c : Char) : RE := .pred (fun d => d == c)
/-- A literal under `re.IGNORECASE`. -/
def rcharCI (c : Char) : RE := .pred (fun d => d.toLower == c.toLower)
def rseq (l : List RE) : RE := l.foldr .seq .eps
def rplus (r : RE) : RE := .rep 1 none true r
def rstar (r : RE) : RE := .rep 0 none true r
def ropt (r : RE) : RE := .rep 0 (some 1) true r
def rplusLazy (r : RE) : RE := .rep 1 none false r
def rexact (n : Nat) (r : RE) : RE := .rep n (some n) true r
def rrange (lo hi : Nat) (r : RE) : RE := .rep lo (some hi) true r
def ratLeast (n : Nat) (r : RE) : RE := .rep n none true r
def rstrCI (s : String) : RE := rseq (s.toList.map rcharCI)

/-- Recursion-depth budget; ample for every string evaluated in this file. -/
def reFuel : Nat := 4000

/-- `pattern.match(s)` (anchored at the start; the remainder after the match is
ignored — every source pattern ends in `$` anyway). -/
def reTopMatch (r : RE) (s : String) : Option Caps :=
  reMatch reFuel r s.toList [] (fun _ caps => some caps)

/-- `pattern.fullmatch(s)`: the match must consume the entire input. -/
def reFullmatch (r : RE) (s : String) : Option Caps :=
  reMatch reFuel r s.toList [] (fun rest caps => if rest.isEmpty then some caps else none)

/-- Leftmost search: the least offset at which `r` matches, together with the
input remaining after that (first, per backtracking order) match. -/
def reSearchAux (r : RE) : Nat → List Char → Nat → Option (Nat × List Char)
  | 0, _, _ => none
  | _ + 1, [], i =>
      reMatch reFuel r [] [] (fun rest _ => some (i, rest))
  | fuel + 1, s@(_ :: tail), i =>
      match reMatch reFuel r s [] (fun rest _ => some (i, rest)) with
      | some v => some v
      | none => reSearchAux r fuel tail (i + 1)

/-- `re.sub(r, "", s)`, repeated over the whole string (every tag pattern used
by the source ends in `.*`, so at most one replacement ever happens; the
general loop is still modelled). -/
def reSubEmpty : Nat → RE → List Char → List Char
  | 0, _, s => s
  | fuel + 1, r, s =>
      match reSearchAux r (s.length + 1) s 0 with
      | none => s
      | some (i, rest) =>
          if rest.length == s.length then s  -- no progress; cannot happen for the tag patterns
          else s.take i ++ reSubEmpty fuel r rest

def reSub (r : RE) (s : String) : String :=
  String.mk (reSubEmpty (s.toList.length + 1) r s.toList)

/-! ## The source patterns

Transcribed one-to-one from `nielsen/api.py::get_file_info` and
`nielsen/media.py::TV._load_patterns`.  Comments quote the original regular
expression; `re.IGNORECASE` is reflected by `rcharCI`/`rstrCI` on letters. -/

/-- `(?P<series>.+)\.+(?P<year>\d{4})\.(?P<season>\d{1,2})(?P<episode>\d{2})\.*(?P<title>.*)?\.+(?P<extension>\w+)$`, IGNORECASE (api.py pattern 1). -/
def apiP1 : RE := rseq [
  .group "series" (rplus (.pred anyCh)),
  rplus (rchar '.'),
  .group "year" (rexact 4 (.pred digitCh)),
  rchar '.',
  .group "season" (rrange 1 2 (.pred digitCh)),
  .group "episode" (rexact 2 (.pred digitCh)),
  rstar (rchar '.'),
  ropt (.group "title" (rstar (.pred anyCh))),
  rplus (rchar '.'),
  .group "extension" (rplus (.pred wordCh)),
  .eol]

/-- `(?P<series>.+)\.+S(?P<season>\d{2})\.?E(?P<episode>\d{2})\.*(?P<title>.*)?\.+(?P<extension>\w+)$`, IGNORECASE (api.py pattern 2). -/
def apiP2 : RE := rseq [
  .group "series" (rplus (.pred anyCh)),
  rplus (rchar '.'),
  rcharCI 'S',
  .group "season" (rexact 2 (.pred digitCh)),
  ropt (rchar '.'),
  rcharCI 'E',
  .group "episode" (rexact 2 (.pred digitCh)),
  rstar (rchar '.'),
  ropt (.group "title" (rstar (.pred anyCh))),
  rplus (rchar '.'),
  .group "extension" (rplus (.pred wordCh)),
  .eol]

/-- `(?P<series>.+)\.+S?(?P<season>\d{1,})\.?E?(?P<episode>\d{2,})\.*(?P<title>.*)?\.+(?P<extension>\w+)$`, IGNORECASE (api.py pattern 3 and media.py pattern 3). -/
def apiP3 : RE := rseq [
  .group "series" (rplus (.pred anyCh)),
  rplus (rchar '.'),
  ropt (rcharCI 'S'),
  .group "season" (ratLeast 1 (.pred digitCh)),
  ropt (rchar '.'),
  ropt (rcharCI 'E'),
  .group "episode" (ratLeast 2 (.pred digitCh)),
  rstar (rchar '.'),
  ropt (.group "title" (rstar (.pred anyCh))),
  rplus (rchar '.'),
  .group "extension" (rplus (.pred wordCh)),
  .eol]

/-- `(?P<series>.+)\s+-(?P<season>\d{2})\.(?P<episode>\d{2})-\s*(?P<title>.*)\.(?P<extension>.+)$` (api.py pattern 4 and media.py pattern 4). -/
def apiP4 : RE := rseq [
  .group "series" (rplus (.pred anyCh)),
  rplus (.pred spaceCh),
  rchar '-',
  .group "season" (rexact 2 (.pred digitCh)),
  rchar '.',
  .group "episode" (rexact 2 (.pred digitCh)),
  rchar '-',
  rstar (.pred spaceCh),
  .group "title" (rstar (.pred anyCh)),
  rchar '.',
  .group "extension" (rplus (.pred anyCh)),
  .eol]

/-- `(?P<series>.+)\s+-(?P<season>\d{1,2})(?P<episode>\d{2,})-\s*(?P<title>.*)\.(?P<extension>.+)$` (api.py pattern 5). -/
def apiP5 : RE := rseq [
  .group "series" (rplus (.pred anyCh)),
  rplus (.pred spaceCh),
  rchar '-',
  .group "season" (rrange 1 2 (.pred digitCh)),
  .group "episode" (ratLeast 2 (.pred digitCh)),
  rchar '-',
  rstar (.pred spaceCh),
  .group "title" (rstar (.pred anyCh)),
  rchar '.',
  .group "extension" (rplus (.pred anyCh)),
  .eol]

/-- `(?P<series>.+)S(?P<season>\d{1,2})E(?P<episode>\d{2,}).*\.(?P<extension>.+)$` (api.py pattern 6; note: no `title` group, case-sensitive). -/
def apiP6 : RE := rseq [
  .group "series" (rplus (.pred anyCh)),
  rchar 'S',
  .group "season" (rrange 1 2 (.pred digitCh)),
  rchar 'E',
  .group "episode" (ratLeast 2 (.pred digitCh)),
  rstar (.pred anyCh),
  rchar '.',
  .group "extension" (rplus (.pred anyCh)),
  .eol]

/-- `(1080p|720p|HDTV|WEB|PROPER|REPACK|RERIP).*`, IGNORECASE
(the release-tag pattern of api.py). -/
def tagAlt : RE :=
  .alt (rstrCI "1080p") (.alt (rstrCI "720p") (.alt (rstrCI "HDTV")
    (.alt (rstrCI "WEB") (.alt (rstrCI "PROPER") (.alt (rstrCI "REPACK") (rstrCI "RERIP"))))))

def apiTags : RE := rseq [tagAlt, rstar (.pred anyCh)]

/-- `\(?(1080p|720p|HDTV|WEB|PROPER|REPACK|RERIP)\)?.*`, IGNORECASE
(the release-tag pattern of media.py). -/
def mediaTags : RE := rseq [ropt (rchar '('), tagAlt, ropt (rchar ')'), rstar (.pred anyCh)]

/-- `(?P<series>.+?)\.+(?P<year>\d{4}|\(\d{4}\))?\.*S(?P<season>\d{2})\.?E(?P<episode>\d{2})\.*(?P<title>.*)?\.+(?P<extension>\w+)$`, IGNORECASE (media.py pattern 1; note the lazy `.+?`). -/
def mediaP1 : RE := rseq [
  .group "series" (rplusLazy (.pred anyCh)),
  rplus (rchar '.'),
  ropt (.group "year" (.alt (rexact 4 (.pred digitCh))
    (rseq [rchar '(', rexact 4 (.pred digitCh), rchar ')']))),
  rstar (rchar '.'),
  rcharCI 'S',
  .group "season" (rexact 2 (.pred digitCh)),
  ropt (rchar '.'),
  rcharCI 'E',
  .group "episode" (rexact 2 (.pred digitCh)),
  rstar (rchar '.'),
  ropt (.group "title" (rstar (.pred anyCh))),
  rplus (rchar '.'),
  .group "extension" (rplus (.pred wordCh)),
  .eol]

/-- `(?P<series>.+?)\.+(?P<year>\d{4}|\(\d{4}\))?\.(?P<season>\d{1,2})(?P<episode>\d{2})\.*(?P<title>.*)?\.+(?P<extension>\w+)$`, IGNORECASE (media.py pattern 2). -/
def mediaP2 : RE := rseq [
  .group "series" (rplusLazy (.pred anyCh)),
  rplus (rchar '.'),
  ropt (.group "year" (.alt (rexact 4 (.pred digitCh))
    (rseq [rchar '(', rexact 4 (.pred digitCh), rchar ')']))),
  rchar '.',
  .group "season" (rrange 1 2 (.pred digitCh)),
  .group "episode" (rexact 2 (.pred digitCh)),
  rstar (rchar '.'),
  ropt (.group "title" (rstar (.pred anyCh))),
  rplus (rchar '.'),
  .group "extension" (rplus (.pred wordCh)),
  .eol]

/-- media.py pattern 3 is identical to api.py pattern 3. -/
def mediaP3 : RE := apiP3

/-- media.py pattern 4 is identical to api.py pattern 4. -/
def mediaP4 : RE := apiP4

/-- `(?P<series>.+[^\s-])[\s-]+(?P<season>\d{1,2})(?P<episode>\d{2,})[\s-]+(?P<title>.*)\.(?P<extension>.+)$` (media.py pattern 5). -/
def mediaP5 : RE := rseq [
  .group "series" (rseq [rplus (.pred anyCh), .pred (fun c => !(pyIsSpace c) && c != '-')]),
  rplus (.pred (fun c => pyIsSpace c || c == '-')),
  .group "season" (rrange 1 2 (.pred digitCh)),
  .group "episode" (ratLeast 2 (.pred digitCh)),
  rplus (.pred (fun c => pyIsSpace c || c == '-')),
  .group "title" (rstar (.pred anyCh)),
  rchar '.',
  .group "extension" (rplus (.pred anyCh)),
  .eol]

/-- `(?P<series>.+)S(?P<season>\d{1,2})E(?P<episode>\d{2,})(?P<title>.*)\.(?P<extension>.+)$` (media.py pattern 6; unlike api.py pattern 6 it has a `title` group). -/
def mediaP6 : RE := rseq [
  .group "series" (rplus (.pred anyCh)),
  rchar 'S',
  .group "season" (rrange 1 2 (.pred digitCh)),
  rchar 'E',
  .group "episode" (ratLeast 2 (.pred digitCh)),
  .group "title" (rstar (.pred anyCh)),
  rchar '.',
  .group "extension" (rplus (.pred anyCh)),
  .eol]

def apiPatterns : List RE := [apiP1, apiP2, apiP3, apiP4, apiP5, apiP6]

def mediaPatterns : List RE := [mediaP1, mediaP2, mediaP3, mediaP4, mediaP5, mediaP6]

/-! ## The legacy pipeline: `nielsen/api.py`

`get_file_info`, `filter_series` and the parts of `process_file` that touch
the filesystem.  The `CONFIG` object is reduced to the options these functions
read: the `[Filters]` section (option keys lower-cased, as `ConfigParser`
stores them), and the `Options` booleans `FetchTitles`, `DryRun`,
`OrganizeFiles` plus `MediaPath`.  The network call made by
`get_episode_title` is abstracted as an oracle `fetchTitle season episode
series`, invoked exactly where the source calls it. -/

structure ApiConfig where
  /-- `[Filters]` section: lower-cased key ↦ preferred name. -/
  filters : List (String × String) := []
  /-- `Options.FetchTitles`. -/
  fetchTitles : Bool := false
  /-- `Options.DryRun`. -/
  dryRun : Bool := false
  /-- `Options.OrganizeFiles`. -/
  organizeFiles : Bool := false
  /-- `Options.MediaPath` (empty string means unset). -/
  mediaPath : String := ""

/-- `CONFIG.has_option('Filters', series)`: `ConfigParser` lower-cases the
option key on lookup. -/
def hasFilter (cfg : ApiConfig) (series : String) : Bool :=
  (cfg.filters.find? (fun p => p.1 == pyLower series)).isSome

def getFilter (cfg : ApiConfig) (series : String) : Option String :=
  (cfg.filters.find? (fun p => p.1 == pyLower series)).map Prod.snd

/-- `api.filter_series`. -/
def filterSeries (cfg : ApiConfig) (series : String) : String :=
  match getFilter cfg series with
  | some preferred => preferred
  | none => if pyIsLower series then pyTitle series else series

/-- `os.path.basename` (POSIX): everything after the last slash. -/
def pyBasename (s : String) : String :=
  String.mk ((s.toList.reverse.takeWhile (fun c => c != '/')).reverse)

def pyStartsWith (s pre : String) : Bool := pre.toList.isPrefixOf s.toList

/-- The record `get_file_info` returns (the `info` dictionary). -/
structure ApiInfo where
  series : String
  season : String
  episode : String
  title : String
  extension : String
  deriving DecidableEq, Repr

/-- The case-repair / title-fetch step of `get_file_info`:
`if info['title'].islower(): title-case it; elif it is empty and FetchTitles
is on: fetch it from the web; else leave it alone`. -/
def apiCaseOrFetch (cfg : ApiConfig) (oracle : String → String → String → String)
    (season episode series t : String) : String :=
  if pyIsLower t then pyTitle t
  else if t == "" && cfg.fetchTitles then oracle season episode series
  else t

/-- The part of `get_file_info`'s match branch before the double-episode
check, applied to the group dictionary of the first matching pattern
(`m.groupdict(default='')`; the missing `title` group of pattern 6 comes back
as `''` just as `info.get('title', '')` produces). -/
def apiPostprocessPre (cfg : ApiConfig) (oracle : String → String → String → String)
    (g : Caps) : ApiInfo :=
  let series0 := pyStrip (replaceDotSpace (capGetD g "series" ""))
  let season := pyZfill (pyStrip (capGetD g "season" "")) 2
  let episode0 := pyStrip (capGetD g "episode" "")
  let extension := pyStrip (capGetD g "extension" "")
  let title0 := pyStrip (replaceDotSpace (capGetD g "title" ""))
  let series := filterSeries cfg series0
  let title1 := pyStrip (reSub apiTags title0)
  let title2 := apiCaseOrFetch cfg oracle season episode0 series title1
  { series := series, season := season, episode := episode0,
    title := title2, extension := extension }

/-- The double-episode guard of `get_file_info`:
`info['title'].lower().startswith("e") and info['title'][1:3].isnumeric()`
together with `int(info['title'][1:3]) == int(info['episode']) + 1`. -/
def apiDoubleEpCond (info : ApiInfo) : Bool :=
  pyStartsWith (pyLower info.title) "e" && pyIsNumeric (pySlice info.title 1 3)
    && (pyIntOr0 (pySlice info.title 1 3) == pyIntOr0 info.episode + 1)

/-- The double-episode merge of `get_file_info`:
`info['episode'] += "-" + info['title'][1:3]; info['title'] = info['title'][3:].strip()`. -/
def apiDoubleEp (info : ApiInfo) : ApiInfo :=
  if apiDoubleEpCond info then
    { info with episode := info.episode ++ "-" ++ pySlice info.title 1 3,
                title := pyStrip (pySliceFrom info.title 3) }
  else info

/-- The whole match branch of `get_file_info`. -/
def apiPostprocess (cfg : ApiConfig) (oracle : String → String → String → String)
    (g : Caps) : ApiInfo :=
  apiDoubleEp (apiPostprocessPre cfg oracle g)

/-- First pattern of `get_file_info` that matches (`pattern.match`, i.e.
anchored at the start; all patterns end in `$`). -/
def apiFirstMatch : List RE → String → Option Caps
  | [], _ => none
  | p :: rest, name =>
      match reTopMatch p name with
      | some caps => some caps
      | none => apiFirstMatch rest name

/-- `api.get_file_info`: `None` when no pattern matches. -/
def getFileInfo (cfg : ApiConfig) (oracle : String → String → String → String)
    (filename : String) : Option ApiInfo :=
  (apiFirstMatch apiPatterns (pyBasename filename)).map (apiPostprocess cfg oracle)

/-! ### The legacy filesystem pipeline (`api.process_file` / `api.organize_file`)

Paths are plain strings here (`os.path` style); the filesystem is again a map
to inode numbers.  `chown`/`chmod` move no file and are omitted. -/

abbrev SFS := List (String × Nat)

def sfsLookup (fs : SFS) (p : String) : Option Nat :=
  (fs.find? (fun e => e.1 == p)).map Prod.snd

def sfsRename (fs : SFS) (src dst : String) : SFS :=
  fs.map (fun e => if e.1 == src then (dst, e.2) else e)

/-- `os.path.dirname` (POSIX): the part up to the last slash, with trailing
slashes stripped unless the result consists only of slashes. -/
def pyDirname (s : String) : String :=
  let l := s.toList
  let head := (l.reverse.dropWhile (fun c => c != '/')).reverse
  if head.all (fun c => c == '/') then String.mk head
  else String.mk (head.reverse.dropWhile (fun c => c == '/')).reverse

/-- `os.path.join` for the two-argument relative case the source uses. -/
def pyJoin (a b : String) : String := if a == "" then b else a ++ "/" ++ b

/-- `api.organize_file`: move into `<MediaPath>/<series>/Season <season>`,
skipping (with a warning) when the destination exists; a missing `MediaPath`
or a failed `os.rename` (caught `OSError`) leaves everything in place. -/
def organizeFile (cfg : ApiConfig) (fs : SFS) (filename series season : String) : SFS :=
  if cfg.mediaPath == "" then fs
  else
    let newPath := pyJoin (pyJoin cfg.mediaPath series) ("Season " ++ season)
    let dst := pyJoin newPath (pyBasename filename)
    if (sfsLookup fs dst).isSome then fs
    else if (sfsLookup fs filename).isSome then sfsRename fs filename dst
    else fs

/-- `api.process_file`, restricted to its effect on the file map: a missing
file, a dry run, or a filename no pattern matches leaves the map unchanged;
otherwise rename to the cleaned-up name (never over an existing file) and
optionally organize. -/
def apiProcessFile (cfg : ApiConfig) (oracle : String → String → String → String)
    (fs : SFS) (filename : String) : SFS :=
  if (sfsLookup fs filename).isNone then fs
  else
    match getFileInfo cfg oracle filename with
    | none => fs
    | some info =>
        let clean0 := info.series ++ " -" ++ info.season ++ "." ++ info.episode ++ "- " ++
          info.title ++ "." ++ info.extension
        let clean := pyJoin (pyDirname filename) clean0
        if cfg.dryRun then fs
        else
          let fs1 := if (sfsLookup fs clean).isSome then fs else sfsRename fs filename clean
          if cfg.organizeFiles then organizeFile cfg fs1 clean info.series info.season else fs1

/-! ## Python exceptions -/

inductive PyErr where
  /-- `requests.RequestException` out of `requests.get`. -/
  | requestException
  /-- `response.json()` failed to decode. -/
  | jsonDecodeError
  | keyError
  | indexError
  /-- also stands for `AttributeError` from attribute access on a wrongly
  shaped value. -/
  | typeError
  | valueError (msg : String)
  | noSectionError
  | noOptionError
  | fileNotFoundError
  | eofError
  deriving DecidableEq, Repr

deriving instance DecidableEq for Except

/-! ## The `ConfigParser` state of `nielsen/config.py`

`config = ConfigParser(default_section="nielsen")`: option keys are
lower-cased by `optionxform` on both set and lookup; reads on a named section
fall through to the default section; `has_option` on an absent section is
`False`; the default section is not a member of `sections`. -/

structure PyConfig where
  /-- The `nielsen` (default) section. -/
  defaults : List (String × String) := []
  /-- Named sections, in insertion order. -/
  sections : List (String × List (String × String)) := []
  deriving DecidableEq, Repr

def assocFind (l : List (String × String)) (k : String) : Option String :=
  (l.find? (fun p => p.1 == k)).map Prod.snd

/-- Dict update: an existing key keeps its position, a fresh key is appended
(`ConfigParser` sections are dicts). -/
def assocSet : List (String × String) → String → String → List (String × String)
  | [], k, v => [(k, v)]
  | p :: t, k, v => if p.1 == k then (k, v) :: t else p :: assocSet t k v

def hasSection (cfg : PyConfig) (s : String) : Bool :=
  (cfg.sections.find? (fun p => p.1 == s)).isSome

def addSection (cfg : PyConfig) (s : String) : PyConfig :=
  { cfg with sections := cfg.sections ++ [(s, [])] }

def sectionOpts (cfg : PyConfig) (s : String) : Option (List (String × String)) :=
  (cfg.sections.find? (fun p => p.1 == s)).map Prod.snd

def hasOption (cfg : PyConfig) (s o : String) : Bool :=
  let key := pyLower o
  if s == "nielsen" then (assocFind cfg.defaults key).isSome
  else
    (sectionOpts cfg s).elim false
      (fun opts => (assocFind opts key).isSome || (assocFind cfg.defaults key).isSome)

/-- `config.get(section, option)`; `none` where Python raises
`NoSectionError`/`NoOptionError` (interpolation is not modelled — no stored
value in this development contains `%`). -/
def cfgGet (cfg : PyConfig) (s o : String) : Option String :=
  let key := pyLower o
  if s == "nielsen" then assocFind cfg.defaults key
  else
    (sectionOpts cfg s).elim none
      (fun opts => (assocFind opts key).elim (assocFind cfg.defaults key) some)

/-- Update the (unique) section with the given name. -/
def sectionsSet :
    List (String × List (String × String)) → String → String → String →
      List (String × List (String × String))
  | [], _, _, _ => []
  | p :: t, s, k, v =>
      if p.1 == s then (p.1, assocSet p.2 k v) :: t else p :: sectionsSet t s k v

/-- `config.set(section, option, value)`.  Callers in this development ensure
the section exists first (as the source does), so the missing-section
`NoSectionError` branch leaves the state unchanged. -/
def cfgSet (cfg : PyConfig) (s o v : String) : PyConfig :=
  let key := pyLower o
  if s == "nielsen" then { cfg with defaults := assocSet cfg.defaults key v }
  else { cfg with sections := sectionsSet cfg.sections s key v }

/-- `config.getint(section, option, fallback=f)`: the fallback covers a
missing section/option, while an unparsable stored value raises
`ValueError`. -/
def cfgGetInt (cfg : PyConfig) (s o : String) (fallback : Int) : Except PyErr Int :=
  match cfgGet cfg s o with
  | none => .ok fallback
  | some v =>
      match pyInt? v with
      | some n => .ok n
      | none => .error (.valueError "int")

/-- `config.getboolean(section, option)` (no fallback):
`ConfigParser._convert_to_boolean`. -/
def cfgGetBool (cfg : PyConfig) (s o : String) : Except PyErr Bool :=
  match cfgGet cfg s o with
  | none => .error .noOptionError
  | some v =>
      let l := pyLower v
      if l == "1" || l == "yes" || l == "true" || l == "on" then .ok true
      else if l == "0" || l == "no" || l == "false" || l == "off" then .ok false
      else .error (.valueError "bool")

/-- The default options installed by `nielsen/config.py` (the `library` value
is `str(pathlib.Path.home())` and thus environment dependent; a fixed
placeholder is used). -/
def nielsenDefaults : List (String × String) := [
  ("simulate", "False"), ("fetch", "True"), ("transform", "True"),
  ("interactive", "True"), ("library", "/home/user"),
  ("logfile", "~/.local/log/nielsen/nielsen.log"), ("loglevel", "WARNING"),
  ("mode", "644"), ("organize", "True"), ("rename", "True")]

/-! ## JSON values and HTTP responses -/

inductive Json where
  | null
  | bool (b : Bool)
  | num (n : Int)
  | str (s : String)
  | arr (xs : List Json)
  | obj (kvs : List (String × Json))

/-- Python truthiness of a JSON-decoded value. -/
def jsonTruthy : Json → Bool
  | .null => false
  | .bool b => b
  | .num n => n != 0
  | .str s => s != ""
  | .arr xs => !xs.isEmpty
  | .obj kvs => !kvs.isEmpty

/-- `len(x)` for the shapes the source applies it to. -/
def jLen : Json → Except PyErr Nat
  | .arr xs => .ok xs.length
  | .obj kvs => .ok kvs.length
  | .str s => .ok s.length
  | _ => .error .typeError

/-- `x[k]` on a decoded dict. -/
def jSub : Json → String → Except PyErr Json
  | .obj kvs, k =>
      match (kvs.find? (fun p => p.1 == k)).map Prod.snd with
      | some v => .ok v
      | none => .error .keyError
  | _, _ => .error .typeError

/-- `x[i]` on a decoded list (`i` may have been computed as a nonnegative
int). -/
def jIdx (j : Json) (i : Nat) : Except PyErr Json :=
  match j with
  | .arr xs =>
      match xs.drop i with
      | v :: _ => .ok v
      | [] => .error .indexError
  | _ => .error .typeError

/-- `x.get(k)` on a decoded dict (`None` when the key is absent);
`AttributeError` on a non-dict. -/
def jGetOpt : Json → String → Except PyErr (Option Json)
  | .obj kvs, k => .ok ((kvs.find? (fun p => p.1 == k)).map Prod.snd)
  | _, _ => .error .typeError

/-- The ids this development extracts from JSON are integers; a packet whose
id field is not an integer is rejected as a type error (Python would pass the
raw object along instead — none of the claims exercises that). -/
def jAsInt : Json → Except PyErr Int
  | .num n => .ok n
  | _ => .error .typeError

/-- `str(x)` where `x` came out of `dict.get` (so possibly `None`). -/
def pyStrOptJson : Option Json → String
  | none => "None"
  | some .null => "None"
  | some (.bool true) => "True"
  | some (.bool false) => "False"
  | some (.num n) => toString n
  | some (.str s) => s
  | some (.arr _) => "<list repr>"   -- not reached by the source
  | some (.obj _) => "<dict repr>"   -- not reached by the source

structure HttpResponse where
  /-- `response.ok` (status < 400). -/
  ok : Bool
  /-- `response.json()`: `none` means the body was not decodable
  (`JSONDecodeError`). -/
  body : Option Json

/-- The remote catalog and the operator: `none` from an endpoint means
`requests.get` raised a transport error. -/
structure World where
  /-- `/singlesearch/shows/?q=<series>` -/
  single : String → Option HttpResponse := fun _ => none
  /-- `/search/shows/?q=<series>` -/
  multi : String → Option HttpResponse := fun _ => none
  /-- `/shows/<id>/episodebynumber?season=<s>&number=<e>` -/
  episode : Int → Int → Int → Option HttpResponse := fun _ _ _ => none
  /-- lines the operator types at `input()` prompts -/
  stdin : List String := []

def doRequest (r : Option HttpResponse) : Except PyErr HttpResponse :=
  match r with
  | none => .error .requestException
  | some resp => .ok resp

def respJson (resp : HttpResponse) : Except PyErr Json :=
  match resp.body with
  | none => .error .jsonDecodeError
  | some j => .ok j

/-! ## `nielsen/fetcher.py`: the TVMaze resolver

Results carry the number of network requests issued (`requests.get` calls),
so "no network request" is a provable statement. -/

/-- `TVMaze.IDS`. -/
def IDS : String := "tvmaze/ids"

/-- `TVMaze.set_series_id`: ensure the `tvmaze/ids` section exists, then map
the series name (lower-cased by `optionxform`) to the id string. -/
def setSeriesId (cfg : PyConfig) (series : String) (id : String) : PyConfig :=
  let cfg1 := if hasSection cfg IDS then cfg else addSection cfg IDS
  cfgSet cfg1 IDS series id

/-- `TVMaze.get_series_id_local`: `config.getint(IDS, series, fallback=0)`. -/
def getSeriesIdLocal (cfg : PyConfig) (series : String) : Except PyErr Int :=
  cfgGetInt cfg IDS series 0

/-- `int(input("Select series: "))` — `EOFError` when the operator input is
exhausted, `ValueError` on a non-numeric line. -/
def pyInputInt : List String → Except PyErr (Int × List String)
  | [] => .error .eofError
  | line :: rest =>
      match pyInt? line with
      | some n => .ok (n, rest)
      | none => .error (.valueError "int")

/-- The selection loop of `TVMaze.pick_series`:
`selection = -1; while 0 > selection or selection >= len(results):
selection = int(input(…)) - 1`. -/
def pickLoop (n : Nat) : List String → Int → Except PyErr Int
  | ins, sel =>
      if 0 ≤ sel ∧ sel < (n : Int) then .ok sel
      else
        match ins with
        | [] => .error .eofError
        | line :: rest => do
            let v ← (pyInputInt (line :: rest)).map Prod.fst
            pickLoop n rest (v - 1)

/-- `TVMaze.pick_series` (the candidate pretty-printing has no effect on the
result and is not modelled; the selection loop and final indexing are). -/
def pickSeries (stdin : List String) (_query : String) (results : Json) :
    Except PyErr Json := do
  let n ← jLen results
  let sel ← pickLoop n stdin (-1)
  jIdx results sel.toNat

/-- `TVMaze.get_series_id_search`.  `picker = none` means the default
`self.pick_series` reading the operator's input.  Returns the id and the
number of network requests (always 1: the `search_shows` call). -/
def getSeriesIdSearch (w : World) (series : String)
    (picker : Option (String → Json → Except PyErr Json) := none) :
    Except PyErr (Int × Nat) := do
  let resp ← doRequest (w.multi series)
  let rjson ← respJson resp
  -- if not rjson: return 0
  if !(jsonTruthy rjson) then return (0, 1)
  -- if len(rjson) == 1: return rjson[0]["show"]["id"]
  let n ← jLen rjson
  if n == 1 then
    let first ← jIdx rjson 0
    let show_ ← jSub first "show"
    let id ← jAsInt (← jSub show_ "id")
    return (id, 1)
  else
    let pk := picker.getD (pickSeries w.stdin)
    let selection ← pk series rjson
    let show_ ← jSub selection "show"
    let id ← jAsInt (← jSub show_ "id")
    return (id, 1)

/-- `TVMaze.get_series_id_singlesearch`.  Note the decode of the body happens
before the `response.ok` test, exactly as in the source. -/
def getSeriesIdSinglesearch (w : World) (series : String) :
    Except PyErr (Int × Nat) := do
  let resp ← doRequest (w.single series)
  let rjson ← respJson resp
  if resp.ok then
    -- return rjson.get("id", 0)
    let v ← jGetOpt rjson "id"
    match v with
    | some j => do
        let id ← jAsInt j
        return (id, 1)
    | none => return (0, 1)
  else
    return (0, 1)

/-- `TVMaze.get_series_id`: local cache first, then the interactive `search`
or the non-interactive `singlesearch` endpoint; a non-zero id obtained while
not yet cached is written back to the config. -/
def getSeriesId (w : World) (cfg : PyConfig) (series : String)
    (interactive : Bool := false)
    (picker : Option (String → Json → Except PyErr Json) := none) :
    Except PyErr (Int × PyConfig × Nat) := do
  let (id, net) ←
    if hasOption cfg IDS series then do
      let v ← getSeriesIdLocal cfg series
      pure (v, 0)
    else if interactive then getSeriesIdSearch w series picker
    else getSeriesIdSinglesearch w series
  -- if series_id and not config.has_option(self.IDS, series): set_series_id(…)
  let cfg' :=
    if id != 0 && !(hasOption cfg IDS series) then setSeriesId cfg series (toString id)
    else cfg
  pure (id, cfg', net)

/-- `nielsen/media.py::TV` metadata record (the dataclass fields). -/
structure TVRec where
  series : String := ""
  seriesId : Int := 0
  season : Int := 0
  episode : Int := 0
  title : String := ""
  deriving DecidableEq, Repr

/-- `TVMaze.get_episode_title` (on a `TV` object, the only case the source
handles; its internal `get_series_id` call uses the non-interactive
default).  The inner `episodebynumber` guard `if not series_id` cannot fire —
the id was already checked — and the `isinstance(series, int)` branch passes
the id straight through. -/
def getEpisodeTitle (w : World) (cfg : PyConfig) (tv : TVRec) :
    Except PyErr (String × PyConfig × Nat) := do
  let (sid, cfg1, n1) ← getSeriesId w cfg tv.series
  if sid == 0 then throw (.valueError "No Series ID")
  if tv.season == 0 then throw (.valueError "No Season")
  if tv.episode == 0 then throw (.valueError "No Episode Number")
  let resp ← doRequest (w.episode sid tv.season tv.episode)
  let rjson ← respJson resp
  if resp.ok then
    -- episode_title = str(rjson.get("name"))
    let v ← jGetOpt rjson "name"
    return (pyStrOptJson v, cfg1, n1 + 1)
  else
    return ("", cfg1, n1 + 1)

/-- `TVMaze.fetch`: resolve the series id (interactivity from the config),
fail on zero, record the id, then fill in the episode title. -/
def tvmazeFetch (w : World) (cfg : PyConfig) (tv : TVRec) :
    Except PyErr (TVRec × PyConfig × Nat) := do
  let interactive ← cfgGetBool cfg "nielsen" "interactive"
  let (sid, cfg1, n1) ← getSeriesId w cfg tv.series interactive
  if sid == 0 then throw (.valueError "No Series ID")
  let cfg2 := setSeriesId cfg1 tv.series (toString sid)
  let (title, cfg3, n2) ← getEpisodeTitle w cfg2 tv
  pure ({ tv with title := title }, cfg3, n1 + n2)

/-! ## `nielsen/media.py`: inference, rename, organize

Files live in an explicit filesystem map from paths to inode numbers, so
"same file" (`Path.samefile`) and "left untouched" are expressible.  A path is
a directory prefix plus `pathlib` stem and suffix; a leading `""` directory
component marks an absolute path. -/

structure FilePath where
  dir : List String := []
  stem : String
  ext : String := ""
  deriving DecidableEq, Repr

/-- `path.name`. -/
def FilePath.name (p : FilePath) : String := p.stem ++ p.ext

/-- `path.with_stem(s)`. -/
def FilePath.withStem (p : FilePath) (s : String) : FilePath := { p with stem := s }

/-- Files on disk: path ↦ inode. -/
abbrev FS := List (FilePath × Nat)

def fsLookup (fs : FS) (p : FilePath) : Option Nat :=
  (fs.find? (fun e => decide (e.1 = p))).map Prod.snd

/-- `Media._match`: the first `fullmatch` among the type's patterns, as a
group dictionary; `{}` (empty) when nothing matches. -/
def mediaFirstFullmatch : List RE → String → Option Caps
  | [], _ => none
  | p :: rest, name =>
      match reFullmatch p name with
      | some caps => some caps
      | none => mediaFirstFullmatch rest name

def mediaMatch (name : String) : Caps :=
  (mediaFirstFullmatch mediaPatterns name).getD []

/-- `Media.transform(field)` for a `TV` object (`section = "tv"`): look the
current value up in the `tv/transform/<field>` config section; absent
section, or absent option, returns the value unchanged. -/
def transform (cfg : PyConfig) (fieldName : String) (option : String) : String :=
  let sectionName := "tv/transform/" ++ fieldName
  if !(hasSection cfg sectionName) then option
  else if !(hasOption cfg sectionName option) then option
  else (cfgGet cfg sectionName option).getD option

/-- The `TV.metadata` setter: series is dot-collapsed, stripped, `str.title`d
and passed through the transform table; season/episode become ints; the title
is dot-collapsed, stripped, release-tag-stripped and `string.capwords`d. -/
def tvSetMetadata (cfg : PyConfig) (tv : TVRec) (md : Caps) : TVRec :=
  let series0 := pyTitle (pyStrip (replaceDotSpace (capGetD md "series" "")))
  let series := transform cfg "series" series0
  let season :=
    match capLookup md "season" with
    | some s => pyIntOr0 s
    | none => 0
  let episode :=
    match capLookup md "episode" with
    | some s => pyIntOr0 s
    | none => 0
  let title0 := pyStrip (replaceDotSpace (capGetD md "title" ""))
  let title := pyCapwords (pyStrip (reSub mediaTags title0))
  { tv with series := series, season := season, episode := episode, title := title }

/-- `TV.infer()` on a freshly constructed object (the `TV` pattern list is
never empty, so the `NO_PATTERNS` early return does not apply). -/
def tvInfer (cfg : PyConfig) (name : String) : TVRec :=
  tvSetMetadata cfg {} (mediaMatch name)

/-- `TV.__str__`:
`f"{series or 'Unknown'} -{season:02d}.{episode:02d}- {title or 'Unknown'}"`. -/
def tvStr (tv : TVRec) : String :=
  (if tv.series == "" then "Unknown" else tv.series) ++ " -" ++
    fmt02 tv.season ++ "." ++ fmt02 tv.episode ++ "- " ++
    (if tv.title == "" then "Unknown" else tv.title)

inductive RenState where
  /-- the file was renamed to the destination -/
  | renamed
  /-- destination exists and is the same file: logged, success -/
  | alreadyCorrect
  /-- destination exists and is a different file: `FILE_CONFLICT` warning -/
  | conflict
  /-- simulate mode: nothing touched -/
  | simulated
  deriving DecidableEq, Repr

/-- `Media.rename`: destination is the current path with the stem replaced by
`str(self)`; an existing destination is never overwritten — same file is an
idempotent no-op, a different file is a reported conflict. -/
def mediaRename (simulate : Bool) (fs : FS) (p : FilePath) (newStem : String) :
    Except PyErr (FilePath × FS × RenState) :=
  if (fsLookup fs p).isNone then .error .fileNotFoundError
  else
    let dest := p.withStem newStem
    match fsLookup fs dest with
    | some j =>
        if fsLookup fs p == some j then .ok (p, fs, .alreadyCorrect)
        else .ok (p, fs, .conflict)
    | none =>
        if simulate then .ok (p, fs, .simulated)
        else .ok (dest, fs.map (fun e => if decide (e.1 = p) then (dest, e.2) else e), .renamed)

/-- `TV.orgdir`: `library / f"{series}/Season {season:02d}"`.  When the series
is empty the right-hand side begins with `/` and `pathlib` discards the
library (absolute-path join). -/
def orgdirOf (library : List String) (tv : TVRec) : List String :=
  if tv.series == "" then ["", "Season " ++ fmt02 tv.season]
  else library ++ [tv.series, "Season " ++ fmt02 tv.season]

/-- `Media.organize` restricted to its effect on the file map: `shutil.move`
into the organization directory (the chmod/chown calls change no path).  The
`TypeError` guard for a vanished file is kept; an existing same-named file at
the destination is overwritten by `os.rename` semantics. -/
def mediaOrganize (simulate : Bool) (fs : FS) (p : FilePath) (orgdir : List String) :
    Except PyErr (FilePath × FS) :=
  match fsLookup fs p with
  | none => .error .typeError
  | some i =>
      if simulate then .ok (p, fs)
      else
        let dest : FilePath := { p with dir := orgdir }
        .ok (dest,
          (fs.filter (fun e => !(decide (e.1 = p) || decide (e.1 = dest)))) ++ [(dest, i)])

/-- `processor.Processor.process` for the TV/TVMaze pair: infer, then fetch /
rename / organize, each gated by its config flag.  No step is wrapped in a
handler: any error aborts the processing of this file.  (`TV(path)` performs
no existence check when handed a `Path` object, and the library directory is
read from the config at use time.) -/
def processorProcess (w : World) (cfg : PyConfig) (fs : FS) (p : FilePath) :
    Except PyErr (TVRec × PyConfig × FS × FilePath) := do
  let tv := tvInfer cfg p.name
  let fetchB ← cfgGetBool cfg "tv" "fetch"
  let (tv, cfg) ←
    if fetchB then do
      let (tv2, cfg2, _) ← tvmazeFetch w cfg tv
      pure (tv2, cfg2)
    else pure (tv, cfg)
  let renameB ← cfgGetBool cfg "tv" "rename"
  let (p, fs) ←
    if renameB then do
      let simulate ← cfgGetBool cfg "nielsen" "simulate"
      let (p2, fs2, _) ← mediaRename simulate fs p (tvStr tv)
      pure (p2, fs2)
    else pure (p, fs)
  let organizeB ← cfgGetBool cfg "tv" "organize"
  let (p, fs) ←
    if organizeB then do
      let simulate ← cfgGetBool cfg "nielsen" "simulate"
      let lib :=
        match cfgGet cfg "tv" "library" with
        | some l =>
            ((l.toList.splitOnP (fun c => c == '/')).filter (fun c => !c.isEmpty)).map
              String.mk |>.cons ""
        | none => [""]
      let (p2, fs2) ← mediaOrganize simulate fs p (orgdirOf lib tv)
      pure (p2, fs2)
    else pure (p, fs)
  pure (tv, cfg, fs, p)

/-! # Theorems -/

/-! Small helper lemmas about the string primitives. -/

theorem toList_mk (l : List Char) : (String.mk l).toList = l := rfl

theorem pyLower_toList (s : String) : (pyLower s).toList = s.toList.map lowerCh := rfl

theorem pySlice_toList (s : String) (a b : Nat) :
    pySlice s a b = String.mk ((s.toList.drop a).take (b - a)) := rfl

/-! The decimal print/parse round trip: `int(str(r)) == r`, needed for the
series-id cache (ids are stored with `str` and read back with `getint`). -/

theorem digitChar_spec {n : Nat} (h : n < 10) :
    (Nat.digitChar n).isDigit = true ∧ (Nat.digitChar n).toNat - 48 = n := by
  interval_cases n <;> exact ⟨by decide, by decide⟩

def digitChars : List Char := ['0', '1', '2', '3', '4', '5', '6', '7', '8', '9']

theorem digitChar_mem {n : Nat} (h : n < 10) : Nat.digitChar n ∈ digitChars := by
  interval_cases n <;> decide

theorem natDigits_mem10 (n : Nat) : ∀ c ∈ natDigits n, c ∈ digitChars := by
  induction n using Nat.strong_induction_on with
  | _ n ih =>
    rw [natDigits]
    split
    · next h =>
        intro c hc
        rw [List.mem_singleton] at hc
        subst hc
        exact digitChar_mem h
    · next h =>
        intro c hc
        rcases List.mem_append.mp hc with h1 | h2
        · exact ih (n / 10) (Nat.div_lt_self (by omega) (by omega)) c h1
        · rw [List.mem_singleton] at h2
          subst h2
          exact digitChar_mem (Nat.mod_lt n (by omega))

theorem mem10_not_space {c : Char} (h : c ∈ digitChars) : pyIsSpace c = false := by
  fin_cases h <;> decide

theorem mem10_ne_plus {c : Char} (h : c ∈ digitChars) : (c == '+') = false := by
  fin_cases h <;> decide

theorem mem10_ne_minus {c : Char} (h : c ∈ digitChars) : (c == '-') = false := by
  fin_cases h <;> decide

theorem natDigits_ne_nil (n : Nat) : natDigits n ≠ [] := by
  rw [natDigits]
  split <;> simp

theorem toDigitsCore_eq_natDigits (fuel : Nat) :
    ∀ (n : Nat) (acc : List Char), n < fuel →
      Nat.toDigitsCore 10 fuel n acc = natDigits n ++ acc := by
  induction fuel with
  | zero => intro n acc h; omega
  | succ f ih =>
      intro n acc h
      by_cases h0 : n / 10 = 0
      · have hn : n < 10 := by omega
        have hND : natDigits n = [Nat.digitChar n] := by
          rw [natDigits]; exact dif_pos hn
        simp only [Nat.toDigitsCore]
        rw [if_pos h0, hND, Nat.mod_eq_of_lt hn]
        rfl
      · have hn : ¬ n < 10 := by omega
        have hlt : n / 10 < f := by
          have h2 : n / 10 < n := Nat.div_lt_self (by omega) (by omega)
          omega
        have hND : natDigits n = natDigits (n / 10) ++ [Nat.digitChar (n % 10)] := by
          rw [natDigits]; exact dif_neg hn
        simp only [Nat.toDigitsCore]
        rw [if_neg h0, ih (n / 10) _ hlt, hND, List.append_assoc]
        rfl

theorem foldl_digitStep_natDigits (n : Nat) :
    ∀ m : Nat, List.foldl digitStep (some m) (natDigits n) =
      some (m * 10 ^ (natDigits n).length + n) := by
  induction n using Nat.strong_induction_on with
  | _ n ih =>
    intro m
    by_cases hn : n < 10
    · have hND : natDigits n = [Nat.digitChar n] := by
        rw [natDigits]; exact dif_pos hn
      obtain ⟨hd, hv⟩ := digitChar_spec hn
      rw [hND]
      simp [digitStep, hd, hv]
    · have hrec := ih (n / 10) (Nat.div_lt_self (by omega) (by omega)) m
      have hND : natDigits n = natDigits (n / 10) ++ [Nat.digitChar (n % 10)] := by
        rw [natDigits]; exact dif_neg hn
      obtain ⟨hd, hv⟩ := digitChar_spec (Nat.mod_lt n (show 0 < 10 by omega))
      rw [hND, List.foldl_append, hrec]
      simp only [List.foldl_cons, List.foldl_nil, digitStep, hd, if_true, hv,
        List.length_append, List.length_singleton]
      congr 1
      rw [pow_succ, ← Nat.mul_assoc]
      omega

theorem digitsToNat?_natDigits (n : Nat) : digitsToNat? (natDigits n) = some n := by
  have hfold := foldl_digitStep_natDigits n 0
  rcases hcons : natDigits n with _ | ⟨c, l⟩
  · exact absurd hcons (natDigits_ne_nil n)
  · have hstep : digitsToNat? (c :: l) = (c :: l).foldl digitStep (some 0) := rfl
    rw [hstep, ← hcons, hfold]
    simp

theorem natRepr_toList (n : Nat) : (Nat.repr n).toList = natDigits n := by
  show (Nat.toDigits 10 n).asString.toList = natDigits n
  unfold Nat.toDigits
  rw [toDigitsCore_eq_natDigits (n + 1) n [] (by omega), List.append_nil]
  rfl

theorem string_eq_mk_of_toList {s : String} {l : List Char} (h : s.toList = l) :
    s = String.mk l := by
  cases s
  cases h
  rfl

theorem dropWhile_no_space (m : List Char) (hm : ∀ c ∈ m, pyIsSpace c = false) :
    m.dropWhile pyIsSpace = m := by
  cases m with
  | nil => rfl
  | cons a t => simp [List.dropWhile, hm a (by simp)]

theorem pyStrip_of_no_space (l : List Char) (h : ∀ c ∈ l, pyIsSpace c = false) :
    pyStrip (String.mk l) = String.mk l := by
  unfold pyStrip pyStripL
  rw [toList_mk,
    dropWhile_no_space l.reverse (fun c hc => h c (List.mem_reverse.mp hc)),
    List.reverse_reverse, dropWhile_no_space l h]

theorem pyInt?_natRepr (n : Nat) : pyInt? (Nat.repr n) = some (Int.ofNat n) := by
  have hl : (Nat.repr n).toList = natDigits n := natRepr_toList n
  have hdig := natDigits_mem10 n
  have hmk : Nat.repr n = String.mk (natDigits n) := string_eq_mk_of_toList hl
  have hstrip : pyStrip (Nat.repr n) = Nat.repr n := by
    rw [hmk]
    exact pyStrip_of_no_space _ (fun c hc => mem10_not_space (hdig c hc))
  unfold pyInt?
  rw [hstrip, hl]
  rcases hcons : natDigits n with _ | ⟨c, l⟩
  · exact absurd hcons (natDigits_ne_nil n)
  · have hc : c ∈ digitChars := hdig c (by rw [hcons]; simp)
    show (if (c == '+') = true then Option.map Int.ofNat (digitsToNat? l)
      else if (c == '-') = true then
        Option.map (fun k => -Int.ofNat k) (digitsToNat? l)
      else Option.map Int.ofNat (digitsToNat? (c :: l))) = some (Int.ofNat n)
    rw [mem10_ne_plus hc, mem10_ne_minus hc]
    simp only [Bool.false_eq_true, if_false]
    rw [← hcons, digitsToNat?_natDigits]
    rfl

theorem pyInt?_toString_int (r : Int) : pyInt? (toString r) = some r := by
  cases r with
  | ofNat n =>
      show pyInt? (Int.repr (Int.ofNat n)) = some (Int.ofNat n)
      rw [show Int.repr (Int.ofNat n) = Nat.repr n from rfl]
      exact pyInt?_natRepr n
  | negSucc m =>
      show pyInt? (Int.repr (Int.negSucc m)) = some (Int.negSucc m)
      rw [show Int.repr (Int.negSucc m) = "-" ++ Nat.repr (m + 1) from rfl]
      have hl : ("-" ++ Nat.repr (m + 1)).toList = '-' :: natDigits (m + 1) := by
        show ("-" ++ Nat.repr (m + 1)).data = '-' :: natDigits (m + 1)
        rw [String.data_append, ← natRepr_toList (m + 1)]
        rfl
      have hdig := natDigits_mem10 (m + 1)
      have hmk : "-" ++ Nat.repr (m + 1) = String.mk ('-' :: natDigits (m + 1)) :=
        string_eq_mk_of_toList hl
      have hstrip : pyStrip ("-" ++ Nat.repr (m + 1)) = "-" ++ Nat.repr (m + 1) := by
        rw [hmk]
        refine pyStrip_of_no_space _ ?_
        intro c hc
        rcases List.mem_cons.mp hc with h1 | h2
        · subst h1; decide
        · exact mem10_not_space (hdig c h2)
      unfold pyInt?
      rw [hstrip, hl]
      show (if (('-' : Char) == '+') = true then
          Option.map Int.ofNat (digitsToNat? (natDigits (m + 1)))
        else if (('-' : Char) == '-') = true then
          Option.map (fun k => -Int.ofNat k) (digitsToNat? (natDigits (m + 1)))
        else Option.map Int.ofNat (digitsToNat? ('-' :: natDigits (m + 1)))) =
        some (Int.negSucc m)
      rw [show (('-' : Char) == '+') = false from by decide]
      simp only [Bool.false_eq_true, if_false]
      rw [show (('-' : Char) == '-') = true from by decide]
      simp only [if_true, digitsToNat?_natDigits]
      simp [Int.negSucc_eq]

/-- C1 counterexample: `Bones.S04E01E02.720p.HDTV.X264-DIMENSION.mkv` is a
pattern-family-2 match (family 1 does not match, family 2 captures episode
`01`), yet inference produces episode `01-02`, not the captured digits. -/
theorem C1_counterexample :
    reTopMatch apiP1 "Bones.S04E01E02.720p.HDTV.X264-DIMENSION.mkv" = none ∧
    (reTopMatch apiP2 "Bones.S04E01E02.720p.HDTV.X264-DIMENSION.mkv").map
        (fun g => capGetD g "episode" "") = some "01" ∧
    (getFileInfo {} (fun _ _ _ => "") "Bones.S04E01E02.720p.HDTV.X264-DIMENSION.mkv").map
        ApiInfo.episode = some "01-02" ∧ ("01-02" : String) ≠ "01" :=
  ⟨by decide, by decide, by decide, by decide⟩

/-- C1 (amended): when pattern family 2 is the first to match and the
double-episode merge does not fire, the inferred season is the captured season
(stripped, vacuously for a digit capture) left-zero-padded to two digits and
the inferred episode is exactly the captured (stripped) episode digits — for
any input case, since the match is case-insensitive; and the Glades example
infers to the spec's record. -/
theorem C1_family2_season_and_episode (cfg : ApiConfig)
    (oracle : String → String → String → String) (name : String) (g : Caps)
    (h1 : reTopMatch apiP1 (pyBasename name) = none)
    (h2 : reTopMatch apiP2 (pyBasename name) = some g)
    (hnd : apiDoubleEpCond (apiPostprocessPre cfg oracle g) = false) :
    getFileInfo cfg oracle name = some (apiPostprocessPre cfg oracle g) ∧
    (apiPostprocessPre cfg oracle g).season = pyZfill (pyStrip (capGetD g "season" "")) 2 ∧
    (apiPostprocessPre cfg oracle g).episode = pyStrip (capGetD g "episode" "") ∧
    getFileInfo {} (fun _ _ _ => "") "The.Glades.S02E01.Family.Matters.HDTV.XviD-FQM.avi" =
      some { series := "The Glades", season := "02", episode := "01",
             title := "Family Matters", extension := "avi" } := by
  refine ⟨?_, rfl, rfl, by decide⟩
  have e1 : apiFirstMatch apiPatterns (pyBasename name) = some g := by
    simp only [apiPatterns, apiFirstMatch, h1, h2]
  unfold getFileInfo
  rw [e1]
  simp [apiPostprocess, apiDoubleEp, hnd]

def gladesCaps : Caps :=
  [("extension", "avi"), ("title", "Family.Matters.HDTV.XviD-FQM"),
   ("episode", "01"), ("season", "02"), ("series", "The.Glades")]

theorem C1_witness :
    reTopMatch apiP1 (pyBasename "The.Glades.S02E01.Family.Matters.HDTV.XviD-FQM.avi") = none ∧
    reTopMatch apiP2 (pyBasename "The.Glades.S02E01.Family.Matters.HDTV.XviD-FQM.avi") =
      some gladesCaps ∧
    getFileInfo {} (fun _ _ _ => "") "The.Glades.S02E01.Family.Matters.HDTV.XviD-FQM.avi" =
      some (apiPostprocessPre {} (fun _ _ _ => "") gladesCaps) :=
  ⟨by decide, by decide,
    (C1_family2_season_and_episode {} (fun _ _ _ => "")
      "The.Glades.S02E01.Family.Matters.HDTV.XviD-FQM.avi" gladesCaps
      (by decide) (by decide) (by decide)).1⟩

/-- C10: a single-episode title fetch whose HTTP response is successful but
whose JSON body lacks a `name` field (or has it `null`) makes
`get_episode_title` return the literal string `"None"` (not an empty string),
and `TVMaze.fetch` writes the fetched title — hence that `"None"` — into the
media record's title. -/
theorem C10_str_none_title (w : World) (cfg : PyConfig) (tv : TVRec)
    (sid : Int) (cfg1 : PyConfig) (n1 : Nat) (resp : HttpResponse) (j : Json)
    (nameOpt : Option Json)
    (hgs : getSeriesId w cfg tv.series = .ok (sid, cfg1, n1))
    (hsid : sid ≠ 0) (hsea : tv.season ≠ 0) (hep : tv.episode ≠ 0)
    (hresp : w.episode sid tv.season tv.episode = some resp)
    (hok : resp.ok = true) (hbody : resp.body = some j)
    (hname : jGetOpt j "name" = .ok nameOpt)
    (hnull : nameOpt = none ∨ nameOpt = some .null) :
    getEpisodeTitle w cfg tv = .ok ("None", cfg1, n1 + 1) ∧ ("None" : String) ≠ "" ∧
    (∀ (ib : Bool) (sid0 : Int) (cfg0 cfg3 : PyConfig) (n0 n2 : Nat) (t : String),
        cfgGetBool cfg "nielsen" "interactive" = .ok ib →
        getSeriesId w cfg tv.series ib = .ok (sid0, cfg0, n0) → sid0 ≠ 0 →
        getEpisodeTitle w (setSeriesId cfg0 tv.series (toString sid0)) tv = .ok (t, cfg3, n2) →
        tvmazeFetch w cfg tv = .ok ({ tv with title := t }, cfg3, n0 + n2)) := by
  have hnone : pyStrOptJson nameOpt = "None" := by
    rcases hnull with h | h <;> rw [h] <;> rfl
  refine ⟨?_, by decide, ?_⟩
  · simp [getEpisodeTitle, hgs, hsid, hsea, hep, doRequest, hresp, respJson, hbody,
      hok, hname, hnone, Bind.bind, Except.bind, pure, Except.pure]
  · intro ib sid0 cfg0 cfg3 n0 n2 t hib hgs0 hsid0 het
    simp [tvmazeFetch, hib, hgs0, hsid0, het, Bind.bind, Except.bind,
      pure, Except.pure]

def c10cfg : PyConfig :=
  { defaults := nielsenDefaults, sections := [(IDS, [("show", "42")])] }

def c10world : World :=
  { episode := fun _ _ _ => some ⟨true, some (.obj [("number", .num 3)])⟩ }

def c10tv : TVRec := { series := "Show", season := 1, episode := 3 }

theorem C10_witness :
    getSeriesId c10world c10cfg c10tv.series = .ok (42, c10cfg, 0) ∧
    getEpisodeTitle c10world c10cfg c10tv = .ok ("None", c10cfg, 0 + 1) ∧
    tvmazeFetch c10world c10cfg c10tv = .ok ({ c10tv with title := "None" }, c10cfg, 0 + 1) := by
  have h := C10_str_none_title c10world c10cfg c10tv 42 c10cfg 0
    ⟨true, some (.obj [("number", .num 3)])⟩ (.obj [("number", .num 3)]) none
    (by decide) (by decide) (by decide) (by decide) rfl rfl rfl rfl (Or.inl rfl)
  refine ⟨by decide, h.1, ?_⟩
  exact h.2.2 true 42 c10cfg c10cfg 0 1 "None" (by decide)
    (by decide) (by decide) (by rw [show setSeriesId c10cfg c10tv.series (toString (42 : Int)) = c10cfg from by decide]; exact h.1)

def c4cfg : PyConfig :=
  { defaults := nielsenDefaults,
    sections := [("tv", [("fetch", "False"), ("organize", "False")])] }

/-- C4 counterexample: `notashow` matches no pattern ("no inference"), yet the
`Processor.process` pipeline with renaming enabled does not leave the file on
disk untouched — it renames it to the generic `Unknown -00.00- Unknown`
stem. -/
theorem C4_counterexample :
    mediaMatch "notashow" = [] ∧
    processorProcess {} c4cfg [(⟨[], "notashow", ""⟩, 1)] ⟨[], "notashow", ""⟩ =
      .ok (⟨"", 0, 0, 0, ""⟩, c4cfg,
        [(⟨[], "Unknown -00.00- Unknown", ""⟩, 1)], ⟨[], "Unknown -00.00- Unknown", ""⟩) ∧
    ([(⟨[], "Unknown -00.00- Unknown", ""⟩, 1)] : FS) ≠ [(⟨[], "notashow", ""⟩, 1)] :=
  ⟨by decide, by decide, by decide⟩

/-- C4 (amended): on a filename no pattern matches, inference reports "no
inference" (`None` / an empty metadata dictionary) and the legacy
`process_file` pipeline leaves the filesystem untouched and raises nothing;
the newer `Processor.process` pipeline runs its stages regardless, so with
renaming enabled (and fetching disabled) it renames the file to the generic
`Unknown -00.00- Unknown` stem instead of leaving it untouched. -/
theorem C4_no_match_behaviour :
    (∀ (acfg : ApiConfig) (orc : String → String → String → String) (fs : SFS) (f : String),
        getFileInfo acfg orc f = none → apiProcessFile acfg orc fs f = fs) ∧
    (∀ (w : World) (cfg : PyConfig) (fs : FS) (p : FilePath) (i : Nat),
        mediaMatch p.name = [] →
        hasSection cfg "tv/transform/series" = false →
        cfgGetBool cfg "tv" "fetch" = .ok false →
        cfgGetBool cfg "tv" "rename" = .ok true →
        cfgGetBool cfg "tv" "organize" = .ok false →
        cfgGetBool cfg "nielsen" "simulate" = .ok false →
        fsLookup fs p = some i →
        fsLookup fs (p.withStem "Unknown -00.00- Unknown") = none →
        processorProcess w cfg fs p =
          .ok (⟨"", 0, 0, 0, ""⟩, cfg,
            fs.map (fun e =>
              if decide (e.1 = p) then (p.withStem "Unknown -00.00- Unknown", e.2) else e),
            p.withStem "Unknown -00.00- Unknown")) := by
  constructor
  · intro acfg orc fs f h
    simp [apiProcessFile, h]
  · intro w cfg fs p i hm hts hf hr ho hs hp hd
    have htv : tvInfer cfg p.name = ⟨"", 0, 0, 0, ""⟩ := by
      unfold tvInfer
      rw [hm]
      have h1 : pyTitle (pyStrip (replaceDotSpace (capGetD ([] : Caps) "series" ""))) = "" := rfl
      have h2 : pyCapwords (pyStrip (reSub mediaTags
          (pyStrip (replaceDotSpace (capGetD ([] : Caps) "title" ""))))) = "" := by decide
      have h4 : transform cfg "series" "" = "" := by
        unfold transform
        simp [hts]
      simp only [tvSetMetadata, h1, h2, h4, capLookup]
      rfl
    have hstr : tvStr ⟨"", 0, 0, 0, ""⟩ = "Unknown -00.00- Unknown" := by decide
    have hren : mediaRename false fs p (tvStr ⟨"", 0, 0, 0, ""⟩) =
        .ok (p.withStem "Unknown -00.00- Unknown",
          fs.map (fun e =>
            if decide (e.1 = p) then (p.withStem "Unknown -00.00- Unknown", e.2) else e),
          .renamed) := by
      rw [hstr]
      simp only [mediaRename, hp, hd]
      simp
    simp [processorProcess, htv, hf, hr, ho, hs, hren, Bind.bind, Except.bind,
      pure, Except.pure]

theorem C4_witness :
    mediaMatch (FilePath.name ⟨[], "nomatchhere", ""⟩) = [] ∧
    processorProcess {} c4cfg [(⟨[], "nomatchhere", ""⟩, 7)] ⟨[], "nomatchhere", ""⟩ =
      .ok (⟨"", 0, 0, 0, ""⟩, c4cfg,
        [(⟨[], "nomatchhere", ""⟩, 7)].map (fun e =>
          if decide (e.1 = (⟨[], "nomatchhere", ""⟩ : FilePath))
          then (FilePath.withStem ⟨[], "nomatchhere", ""⟩ "Unknown -00.00- Unknown", e.2) else e),
        FilePath.withStem ⟨[], "nomatchhere", ""⟩ "Unknown -00.00- Unknown") :=
  ⟨by decide,
    C4_no_match_behaviour.2 {} c4cfg [(⟨[], "nomatchhere", ""⟩, 7)] ⟨[], "nomatchhere", ""⟩ 7
      (by decide) (by decide) (by decide) (by decide) (by decide) (by decide)
      (by decide) (by decide)⟩

/-- C9 counterexample: a record successfully inferred with an empty title
(the spec's own `Castle.(2009).S07E18.720p.WEB-RiP.mp4` example) renames to
`… - Unknown.…`, and re-inference reads the placeholder back as the title: the
round-tripped record has title `Unknown`, not the original empty title. -/
theorem C9_counterexample :
    tvInfer { defaults := nielsenDefaults } "Castle.(2009).S07E18.720p.WEB-RiP.mp4" =
      { series := "Castle", seriesId := 0, season := 7, episode := 18, title := "" } ∧
    tvStr { series := "Castle", seriesId := 0, season := 7, episode := 18, title := "" } ++
      ".mp4" = "Castle -07.18- Unknown.mp4" ∧
    tvInfer { defaults := nielsenDefaults } "Castle -07.18- Unknown.mp4" =
      { series := "Castle", seriesId := 0, season := 7, episode := 18, title := "Unknown" } ∧
    ("Unknown" : String) ≠ "" :=
  ⟨by decide, by decide, by decide, by decide⟩

/-- C9 (amended): the round trip holds for inferred records with non-empty
series and title whose renamed filename is matched by pattern family 4 (and
not pre-empted by families 1–3), whose captured fields are the record's own
fields — the shape pattern 4 was built for — and whose fields are fixed
points of the normalizer, as inferred fields are: re-inference then
reproduces the record exactly (the `seriesId` field is never set by
inference). -/
theorem C9_roundtrip (cfg : PyConfig) (tv : TVRec) (ext : String) (caps : Caps)
    (hm1 : reFullmatch mediaP1 (tvStr tv ++ ext) = none)
    (hm2 : reFullmatch mediaP2 (tvStr tv ++ ext) = none)
    (hm3 : reFullmatch mediaP3 (tvStr tv ++ ext) = none)
    (hm4 : reFullmatch mediaP4 (tvStr tv ++ ext) = some caps)
    (hcser : capLookup caps "series" = some tv.series)
    (hcsea : capLookup caps "season" = some (fmt02 tv.season))
    (hcep : capLookup caps "episode" = some (fmt02 tv.episode))
    (hctit : capLookup caps "title" = some tv.title)
    (hfix1 : transform cfg "series" (pyTitle (pyStrip (replaceDotSpace tv.series))) = tv.series)
    (hfix2 : pyCapwords (pyStrip (reSub mediaTags (pyStrip (replaceDotSpace tv.title)))) =
      tv.title)
    (hsea2 : pyInt? (fmt02 tv.season) = some tv.season)
    (hep2 : pyInt? (fmt02 tv.episode) = some tv.episode) :
    tvInfer cfg (tvStr tv ++ ext) =
      { series := tv.series, seriesId := 0, season := tv.season,
        episode := tv.episode, title := tv.title } := by
  have hfm : mediaFirstFullmatch mediaPatterns (tvStr tv ++ ext) = some caps := by
    simp only [mediaPatterns, mediaFirstFullmatch, hm1, hm2, hm3, hm4]
  unfold tvInfer mediaMatch
  rw [hfm]
  simp only [Option.getD_some]
  unfold tvSetMetadata capGetD
  rw [hcser, hcsea, hcep, hctit]
  simp only [Option.getD_some, pyIntOr0, hsea2, hep2, hfix1, hfix2]

def c9tv : TVRec :=
  { series := "Ted Lasso", season := 1, episode := 3, title := "Trent Crimm: The Independent" }

def c9caps : Caps :=
  [("extension", "mkv"), ("title", "Trent Crimm: The Independent"),
   ("episode", "03"), ("season", "01"), ("series", "Ted Lasso")]

theorem C9_witness :
    reFullmatch mediaP4 (tvStr c9tv ++ ".mkv") = some c9caps ∧
    tvInfer { defaults := nielsenDefaults } (tvStr c9tv ++ ".mkv") =
      { series := c9tv.series, seriesId := 0, season := c9tv.season,
        episode := c9tv.episode, title := c9tv.title } :=
  ⟨by decide,
    C9_roundtrip { defaults := nielsenDefaults } c9tv ".mkv" c9caps
      (by decide) (by decide) (by decide) (by decide) (by decide) (by decide)
      (by decide) (by decide) (by decide) (by decide) (by decide) (by decide)⟩

/-- The apostrophe as a one-character string. -/
def aposS : String := String.mk [apos]

def devilName : String := "justified.s01e01.devil" ++ aposS ++ "s.due.hdtv.avi"

/-- C8 counterexample: the legacy pipeline word-capitalizes a fully
lower-case title with `str.title()`, which upper-cases the letter after an
apostrophe: the inferred title of `justified.s01e01.devil's.due.hdtv.avi` is
`Devil'S Due`, not `Devil's Due` as the claim requires. -/
theorem C8_counterexample :
    pyIsLower ("devil" ++ aposS ++ "s due") = true ∧
    (getFileInfo {} (fun _ _ _ => "") devilName).map ApiInfo.title =
      some ("Devil" ++ aposS ++ "S Due") ∧
    ("Devil" ++ aposS ++ "S Due") ≠ ("Devil" ++ aposS ++ "s Due") :=
  ⟨by decide, by decide, by decide⟩

/-- C8 (amended): in the legacy pipeline (`api.py`) the only-if-lower-case
rule holds, but the capitalizer is `str.title()`, which turns `devil's` into
`Devil'S`; mixed-case titles are left alone there.  In the newer pipeline
(`media.py`) the title is normalized with `string.capwords` unconditionally —
apostrophes are handled correctly (`devil's` → `Devil's`) but mixed-case
titles are re-cased too — and the series is normalized with `str.title()`
unconditionally. -/
theorem C8_case_repair_actual :
    (∀ (cfg : ApiConfig) (orc : String → String → String → String) (se ep sr t : String),
        pyIsLower t = true → apiCaseOrFetch cfg orc se ep sr t = pyTitle t) ∧
    (∀ (cfg : ApiConfig) (orc : String → String → String → String) (se ep sr t : String),
        pyIsLower t = false → t ≠ "" → apiCaseOrFetch cfg orc se ep sr t = t) ∧
    pyTitle ("devil" ++ aposS ++ "s") = "Devil" ++ aposS ++ "S" ∧
    (∀ (cfg : PyConfig) (tv : TVRec) (md : Caps), (tvSetMetadata cfg tv md).title =
        pyCapwords (pyStrip (reSub mediaTags (pyStrip (replaceDotSpace (capGetD md "title" "")))))) ∧
    (∀ (cfg : PyConfig) (tv : TVRec) (md : Caps), (tvSetMetadata cfg tv md).series =
        transform cfg "series" (pyTitle (pyStrip (replaceDotSpace (capGetD md "series" ""))))) ∧
    pyCapwords ("devil" ++ aposS ++ "s due") = ("Devil" ++ aposS ++ "s Due") ∧
    pyCapwords "Some MIXED Title" = "Some Mixed Title" := by
  refine ⟨?_, ?_, by decide, ?_, ?_, by decide, by decide⟩
  · intro cfg orc se ep sr t h
    simp [apiCaseOrFetch, h]
  · intro cfg orc se ep sr t h hne
    simp [apiCaseOrFetch, h, hne]
  · intro cfg tv md
    simp only [tvSetMetadata]
  · intro cfg tv md
    simp only [tvSetMetadata]

theorem C8_witness :
    pyIsLower "abc def" = true ∧
    apiCaseOrFetch {} (fun _ _ _ => "") "01" "02" "X" "abc def" = pyTitle "abc def" :=
  ⟨by decide,
    C8_case_repair_actual.1 {} (fun _ _ _ => "") "01" "02" "X" "abc def" (by decide)⟩

/-- C5: for every rename attempt whose computed destination already exists:
the same file is a successful idempotent no-op (`alreadyCorrect`), a different
file is a reported conflict; in both cases the returned path is the unchanged
source path and the filesystem is left exactly as it was (neither file is
touched, nothing is overwritten). -/
theorem C5_rename_existing_dest (simulate : Bool) (fs : FS) (p : FilePath)
    (newStem : String) (i j : Nat)
    (hp : fsLookup fs p = some i)
    (hd : fsLookup fs (p.withStem newStem) = some j) :
    mediaRename simulate fs p newStem =
      .ok (p, fs, if i = j then RenState.alreadyCorrect else RenState.conflict) := by
  simp only [mediaRename, hp, hd]
  by_cases h : i = j <;> simp [h]

theorem C5_witness :
    fsLookup [(⟨[], "a", ".mkv"⟩, 1), (⟨[], "b", ".mkv"⟩, 2)] ⟨[], "a", ".mkv"⟩ = some 1 ∧
    fsLookup [(⟨[], "a", ".mkv"⟩, 1), (⟨[], "b", ".mkv"⟩, 2)]
      (FilePath.withStem ⟨[], "a", ".mkv"⟩ "b") = some 2 ∧
    mediaRename false [(⟨[], "a", ".mkv"⟩, 1), (⟨[], "b", ".mkv"⟩, 2)] ⟨[], "a", ".mkv"⟩ "b" =
      .ok (⟨[], "a", ".mkv"⟩, [(⟨[], "a", ".mkv"⟩, 1), (⟨[], "b", ".mkv"⟩, 2)],
        if 1 = 2 then RenState.alreadyCorrect else RenState.conflict) :=
  ⟨by decide, by decide,
    C5_rename_existing_dest false _ _ "b" 1 2 (by decide) (by decide)⟩

/-- C6: a transport failure out of the singlesearch request propagates as
`requestException`, an undecodable body as `jsonDecodeError`; both are typed
errors and an `Except.error` is never equal to any successful `.ok` outcome,
in particular not to the "no results" outcome `.ok (0, 1)`. -/
theorem C6_singlesearch_failures_typed (w : World) (s : String) :
    (w.single s = none → getSeriesIdSinglesearch w s = .error .requestException) ∧
    (∀ resp : HttpResponse, w.single s = some resp → resp.body = none →
      getSeriesIdSinglesearch w s = .error .jsonDecodeError) ∧
    (∀ (e : PyErr) (v : Int × Nat), (Except.error e : Except PyErr (Int × Nat)) ≠ .ok v) := by
  refine ⟨fun h => ?_, fun resp h hb => ?_, fun e v => by simp⟩
  · simp [getSeriesIdSinglesearch, doRequest, h, Bind.bind, Except.bind]
  · simp [getSeriesIdSinglesearch, doRequest, respJson, h, hb, Bind.bind, Except.bind]

theorem C6_witness :
    ({ single := fun _ => some ⟨true, none⟩ : World }.single "X" = some ⟨true, none⟩) ∧
    getSeriesIdSinglesearch { single := fun _ => some ⟨true, none⟩ } "X" =
      .error .jsonDecodeError :=
  ⟨rfl, (C6_singlesearch_failures_typed { single := fun _ => some ⟨true, none⟩ } "X").2.1
    ⟨true, none⟩ rfl rfl⟩

/-- C7: on the interactive (multi-result) path, a search returning zero
results resolves to 0 — for any picker, so without prompting — and caches
nothing (the configuration comes back unchanged); a search returning exactly
one result resolves to that result's id, again for any picker, so without
prompting. -/
theorem C7_search_zero_and_single (w : World) (cfg : PyConfig) (s : String)
    (resp : HttpResponse) (hresp : w.multi s = some resp) :
    ((resp.body = some (.arr []) →
      (∀ pk, getSeriesIdSearch w s pk = .ok (0, 1)) ∧
      (hasOption cfg IDS s = false →
        ∀ pk, getSeriesId w cfg s true pk = .ok (0, cfg, 1)))) ∧
    (∀ (x sh : Json) (id : Int), resp.body = some (.arr [x]) →
      jSub x "show" = .ok sh → jSub sh "id" = .ok (.num id) →
      ∀ pk, getSeriesIdSearch w s pk = .ok (id, 1)) := by
  constructor
  · intro hb
    have hsearch : ∀ pk, getSeriesIdSearch w s pk = .ok (0, 1) := by
      intro pk
      simp [getSeriesIdSearch, doRequest, respJson, hresp, hb, jsonTruthy,
        Bind.bind, Except.bind, pure, Except.pure]
    refine ⟨hsearch, fun hopt pk => ?_⟩
    simp [getSeriesId, hopt, hsearch pk, Bind.bind, Except.bind, pure, Except.pure]
  · intro x sh id hb hsh hid pk
    simp [getSeriesIdSearch, doRequest, respJson, hresp, hb, jsonTruthy, jLen,
      jIdx, hsh, hid, jAsInt, Bind.bind, Except.bind, pure, Except.pure]

/-- The one-candidate search result TVMaze returns for "Ted Lasso" (reduced to
the fields the resolver reads). -/
def tedLassoResult : Json :=
  .obj [("show", .obj [("id", .num 44458), ("name", .str "Ted Lasso")])]

def tedLassoWorld : World :=
  { multi := fun _ => some ⟨true, some (.arr [tedLassoResult])⟩ }

/-! Lemmas about the `ConfigParser` model, for the series-id cache claim. -/

theorem assocFind_assocSet_self (l : List (String × String)) (k v : String) :
    assocFind (assocSet l k v) k = some v := by
  induction l with
  | nil => simp [assocSet, assocFind]
  | cons p t ih =>
      by_cases h : p.1 == k
      · simp [assocSet, h, assocFind]
      · simp only [assocSet, h, Bool.false_eq_true, if_false]
        unfold assocFind at ih ⊢
        rw [List.find?_cons_of_neg _ (by simpa using h)]
        exact ih

theorem mem_assocSet (l : List (String × String)) (k v : String) :
    ∀ p ∈ assocSet l k v, p ∈ l ∨ p = (k, v) := by
  induction l with
  | nil =>
      intro p hp
      simp [assocSet] at hp
      right
      simp [hp]
  | cons q t ih =>
      intro p hp
      by_cases h : q.1 == k
      · rw [assocSet, if_pos h] at hp
        rcases List.mem_cons.mp hp with h1 | h1
        · right; exact h1
        · left; exact List.mem_cons_of_mem q h1
      · rw [assocSet, if_neg (by simpa using h)] at hp
        rcases List.mem_cons.mp hp with h1 | h1
        · left; rw [h1]; exact List.mem_cons_self q t
        · rcases ih p h1 with h2 | h2
          · left; exact List.mem_cons_of_mem q h2
          · right; exact h2

theorem sectionsSet_find_self (t : List (String × List (String × String)))
    (s k v : String) :
    ((sectionsSet t s k v).find? (fun p => p.1 == s)).map Prod.snd =
      ((t.find? (fun p => p.1 == s)).map Prod.snd).map (fun opts => assocSet opts k v) := by
  induction t with
  | nil => simp [sectionsSet]
  | cons q t ih =>
      by_cases h : q.1 == s
      · rw [sectionsSet, if_pos h]
        rw [List.find?_cons_of_pos _ (by simpa using h),
          List.find?_cons_of_pos _ (by simpa using h)]
        rfl
      · rw [sectionsSet, if_neg (by simpa using h)]
        rw [List.find?_cons_of_neg _ (by simpa using h),
          List.find?_cons_of_neg _ (by simpa using h)]
        exact ih

theorem ids_ne_default : ((IDS == "nielsen") = false) := by decide

theorem hasSection_def (cfg : PyConfig) (s : String) :
    hasSection cfg s = (cfg.sections.find? (fun p => p.1 == s)).isSome := rfl

theorem sectionOpts_def (cfg : PyConfig) (s : String) :
    sectionOpts cfg s = (cfg.sections.find? (fun p => p.1 == s)).map Prod.snd := rfl

theorem setSeriesId_eval (cfg : PyConfig) (s v : String) :
    setSeriesId cfg s v =
      { cfg with sections :=
          sectionsSet (if hasSection cfg IDS = true then cfg.sections
            else cfg.sections ++ [(IDS, [])]) IDS (pyLower s) v } := by
  unfold setSeriesId addSection cfgSet
  by_cases h : hasSection cfg IDS = true <;> simp [h, ids_ne_default]

theorem sectionOpts_setSeriesId (cfg : PyConfig) (s v : String) :
    sectionOpts (setSeriesId cfg s v) IDS =
      some (assocSet ((sectionOpts cfg IDS).getD []) (pyLower s) v) := by
  rw [setSeriesId_eval, sectionOpts_def]
  show ((sectionsSet _ IDS (pyLower s) v).find? (fun p => p.1 == IDS)).map Prod.snd = _
  rw [sectionsSet_find_self]
  by_cases h : hasSection cfg IDS = true
  · rw [if_pos h]
    obtain ⟨q, hq⟩ := Option.isSome_iff_exists.mp (by rwa [hasSection_def] at h)
    rw [hq, sectionOpts_def, hq]
    rfl
  · rw [if_neg h]
    have hnone : cfg.sections.find? (fun p => p.1 == IDS) = none := by
      rcases hfind : cfg.sections.find? (fun p => p.1 == IDS) with _ | q
      · exact hfind
      · exact absurd (by rw [hasSection_def, hfind]; rfl) h
    rw [List.find?_append, hnone, sectionOpts_def, hnone]
    simp [Option.or, List.find?]

theorem cfgGet_setSeriesId_self (cfg : PyConfig) (s v : String) :
    cfgGet (setSeriesId cfg s v) IDS s = some v := by
  unfold cfgGet
  simp only [ids_ne_default, Bool.false_eq_true, if_false,
    sectionOpts_setSeriesId, Option.elim_some, assocFind_assocSet_self]

theorem hasOption_setSeriesId_self (cfg : PyConfig) (s v : String) :
    hasOption (setSeriesId cfg s v) IDS s = true := by
  unfold hasOption
  simp only [ids_ne_default, Bool.false_eq_true, if_false,
    sectionOpts_setSeriesId, Option.elim_some, assocFind_assocSet_self]
  simp

theorem hasOption_cfgGet_isSome (cfg : PyConfig) (s : String)
    (h : hasOption cfg IDS s = true) : ∃ v, cfgGet cfg IDS s = some v := by
  unfold hasOption at h
  simp only [ids_ne_default, Bool.false_eq_true, if_false] at h
  unfold cfgGet
  simp only [ids_ne_default, Bool.false_eq_true, if_false]
  rcases hso : sectionOpts cfg IDS with _ | opts
  · rw [hso] at h; simp at h
  · rw [hso] at h
    simp only [Option.elim_some] at h ⊢
    rcases hfind : assocFind opts (pyLower s) with _ | v
    · rw [hfind] at h
      simp at h
      obtain ⟨v, hv⟩ := Option.isSome_iff_exists.mp h
      exact ⟨v, hv⟩
    · exact ⟨v, rfl⟩

/-- Evaluation of `get_series_id` on a cache hit: no network, no change. -/
theorem getSeriesId_cached_eval (w : World) (cfg : PyConfig) (s : String) (ia : Bool)
    (pk : Option (String → Json → Except PyErr Json)) (v : String)
    (hopt : hasOption cfg IDS s = true) (hv : cfgGet cfg IDS s = some v) :
    getSeriesId w cfg s ia pk =
      (match pyInt? v with
       | some r => .ok (r, cfg, 0)
       | none => .error (.valueError "int")) := by
  cases hpi : pyInt? v <;>
    simp [getSeriesId, hopt, getSeriesIdLocal, cfgGetInt, hv, hpi,
      Bind.bind, Except.bind, pure, Except.pure]

/-- Evaluation of `get_series_id` on a cache miss: remote lookup, then the
non-zero result is written back. -/
theorem getSeriesId_remote_eval (w : World) (cfg : PyConfig) (s : String) (ia : Bool)
    (pk : Option (String → Json → Except PyErr Json))
    (hopt : hasOption cfg IDS s = false) :
    getSeriesId w cfg s ia pk =
      (if ia then getSeriesIdSearch w s pk else getSeriesIdSinglesearch w s) >>=
        fun pr => .ok (pr.1,
          (if pr.1 != 0 then setSeriesId cfg s (toString pr.1) else cfg), pr.2) := by
  cases ia with
  | true =>
      cases hrem : getSeriesIdSearch w s pk with
      | error e => simp [getSeriesId, hopt, hrem, Bind.bind, Except.bind]
      | ok pr => simp [getSeriesId, hopt, hrem, Bind.bind, Except.bind, pure, Except.pure]
  | false =>
      cases hrem : getSeriesIdSinglesearch w s with
      | error e => simp [getSeriesId, hopt, hrem, Bind.bind, Except.bind]
      | ok pr => simp [getSeriesId, hopt, hrem, Bind.bind, Except.bind, pure, Except.pure]

/-- The option entries of the `tvmaze/ids` section. -/
def idsEntries (cfg : PyConfig) : List (String × String) :=
  (sectionOpts cfg IDS).getD []

/-- The cache invariant of the claim: every entry is the decimal string of a
non-zero id. -/
def cacheGood (cfg : PyConfig) : Prop :=
  ∀ p ∈ idsEntries cfg, ∃ m : Int, m ≠ 0 ∧ p.2 = toString m

/-- C2: once a resolution of a name succeeds with a non-zero id — from the
cache or from either remote endpoint — every later `get_series_id` call for
the identical name string (with any interactivity, any picker, and against
any remote world, so a fortiori without any network request: the request
count is 0) returns that id and leaves the configuration unchanged; and every
`get_series_id` call preserves the invariant that each cached entry is the
decimal string of a non-zero id (an id of 0 is never written back). -/
theorem C2_cache_hit_and_invariant :
    (∀ (w w2 : World) (cfg : PyConfig) (s : String) (ia ia2 : Bool)
        (pk pk2 : Option (String → Json → Except PyErr Json))
        (r : Int) (cfg' : PyConfig) (n : Nat),
        getSeriesId w cfg s ia pk = .ok (r, cfg', n) → r ≠ 0 →
        getSeriesId w2 cfg' s ia2 pk2 = .ok (r, cfg', 0)) ∧
    (∀ (w : World) (cfg : PyConfig) (s : String) (ia : Bool)
        (pk : Option (String → Json → Except PyErr Json))
        (r : Int) (cfg' : PyConfig) (n : Nat),
        cacheGood cfg →
        getSeriesId w cfg s ia pk = .ok (r, cfg', n) →
        cacheGood cfg') := by
  constructor
  · intro w w2 cfg s ia ia2 pk pk2 r cfg' n h hr
    by_cases hopt : hasOption cfg IDS s = true
    · -- cache hit: the stored value parses to r and nothing changes
      obtain ⟨v, hv⟩ := hasOption_cfgGet_isSome cfg s hopt
      rw [getSeriesId_cached_eval w cfg s ia pk v hopt hv] at h
      cases hpi : pyInt? v with
      | none => rw [hpi] at h; cases h
      | some m =>
          rw [hpi] at h
          obtain ⟨hm, hcfg, hn⟩ : m = r ∧ cfg = cfg' ∧ 0 = n := by
            have := h
            simp only [Except.ok.injEq, Prod.mk.injEq] at this
            exact ⟨this.1, this.2.1, this.2.2⟩
          subst hm; subst hcfg
          rw [getSeriesId_cached_eval w2 cfg s ia2 pk2 v hopt hv, hpi]
    · -- cache miss: the id was written back, the second call is a cache hit
      have hopt2 : hasOption cfg IDS s = false := by
        cases hb : hasOption cfg IDS s
        · rfl
        · exact absurd hb hopt
      rw [getSeriesId_remote_eval w cfg s ia pk hopt2] at h
      cases hrem : (if ia then getSeriesIdSearch w s pk else getSeriesIdSinglesearch w s) with
      | error e => rw [hrem] at h; cases h
      | ok pr =>
          rw [hrem] at h
          simp only [Bind.bind, Except.bind, Except.ok.injEq, Prod.mk.injEq] at h
          obtain ⟨h1, h2, h3⟩ := h
          have hne : (pr.1 != 0) = true := by
            rw [h1]
            simpa using hr
          rw [hne, if_pos rfl] at h2
          have hcfg' : cfg' = setSeriesId cfg s (toString r) := by
            rw [← h2, h1]
          subst hcfg'
          rw [getSeriesId_cached_eval w2 _ s ia2 pk2 (toString r)
            (hasOption_setSeriesId_self cfg s (toString r))
            (cfgGet_setSeriesId_self cfg s (toString r)), pyInt?_toString_int]
  · intro w cfg s ia pk r cfg' n hgood h
    by_cases hopt : hasOption cfg IDS s = true
    · obtain ⟨v, hv⟩ := hasOption_cfgGet_isSome cfg s hopt
      rw [getSeriesId_cached_eval w cfg s ia pk v hopt hv] at h
      cases hpi : pyInt? v with
      | none => rw [hpi] at h; cases h
      | some m =>
          rw [hpi] at h
          have hcfg : cfg = cfg' := by
            simp only [Except.ok.injEq, Prod.mk.injEq] at h
            exact h.2.1
          rw [← hcfg]
          exact hgood
    · have hopt2 : hasOption cfg IDS s = false := by
        cases hb : hasOption cfg IDS s
        · rfl
        · exact absurd hb hopt
      rw [getSeriesId_remote_eval w cfg s ia pk hopt2] at h
      cases hrem : (if ia then getSeriesIdSearch w s pk else getSeriesIdSinglesearch w s) with
      | error e => rw [hrem] at h; cases h
      | ok pr =>
          rw [hrem] at h
          simp only [Bind.bind, Except.bind, Except.ok.injEq, Prod.mk.injEq] at h
          obtain ⟨h1, h2, h3⟩ := h
          by_cases hz : (pr.1 != 0) = true
          · rw [hz, if_pos rfl] at h2
            rw [← h2]
            intro p hp
            unfold idsEntries at hp
            rw [sectionOpts_setSeriesId] at hp
            simp only [Option.getD_some] at hp
            rcases mem_assocSet _ _ _ p hp with hold | hnew
            · exact hgood p hold
            · refine ⟨pr.1, by simpa using hz, ?_⟩
              rw [hnew]
          · have hz2 : (pr.1 != 0) = false := by
              cases hb : (pr.1 != 0)
              · rfl
              · exact absurd hb hz
            rw [hz2] at h2
            simp only [Bool.false_eq_true, if_false] at h2
            rw [← h2]
            exact hgood

def c2cfg : PyConfig := { defaults := nielsenDefaults }

/-- The configuration after the first successful resolution. -/
def c2cfgAfter : PyConfig :=
  { defaults := nielsenDefaults, sections := [(IDS, [("ted lasso", "44458")])] }

def c2world : World :=
  { single := fun _ => some ⟨true, some (.obj [("id", .num 44458), ("name", .str "Ted Lasso")])⟩ }

theorem C2_witness :
    getSeriesId c2world c2cfg "Ted Lasso" false none = .ok (44458, c2cfgAfter, 1) ∧
    (44458 : Int) ≠ 0 ∧
    (∀ (w2 : World) (ia2 : Bool) (pk2 : Option (String → Json → Except PyErr Json)),
      getSeriesId w2 c2cfgAfter "Ted Lasso" ia2 pk2 = .ok (44458, c2cfgAfter, 0)) :=
  ⟨by decide, by decide,
    fun w2 ia2 pk2 =>
      C2_cache_hit_and_invariant.1 c2world w2 c2cfg "Ted Lasso" false ia2 none pk2
        44458 c2cfgAfter 1 (by decide) (by decide)⟩

/-- C3: whenever the (tag-stripped) title of an inferred record starts with
`E` followed by two digits whose value is the captured episode plus one, the
double-episode step merges them into an episode range and re-derives the title
from what follows the marker; and concretely
`Bones.S04E01E02.720p.HDTV.X264-DIMENSION.mkv` infers to episode `01-02` with
an empty title. -/
theorem C3_double_episode_merge (info : ApiInfo) (d1 d2 : Char) (rest : List Char)
    (ht : info.title.toList = 'E' :: d1 :: d2 :: rest)
    (hd1 : d1.isDigit = true) (hd2 : d2.isDigit = true)
    (hsum : pyIntOr0 (String.mk [d1, d2]) = pyIntOr0 info.episode + 1) :
    apiDoubleEp info =
      { info with episode := info.episode ++ "-" ++ String.mk [d1, d2],
                  title := pyStrip (String.mk rest) } ∧
    (getFileInfo {} (fun _ _ _ => "") "Bones.S04E01E02.720p.HDTV.X264-DIMENSION.mkv").map
        (fun i => (i.episode, i.title)) = some ("01-02", "") := by
  have hslice : pySlice info.title 1 3 = String.mk [d1, d2] := by
    rw [pySlice_toList, ht]; rfl
  have hfrom : pySliceFrom info.title 3 = String.mk rest := by
    unfold pySliceFrom; rw [ht]; rfl
  have hcond : apiDoubleEpCond info = true := by
    unfold apiDoubleEpCond pyStartsWith
    rw [pyLower_toList, ht, hslice]
    have he : lowerCh 'E' = 'e' := by decide
    simp [List.isPrefixOf, he, pyIsNumeric, hd1, hd2, hsum]
  refine ⟨?_, by decide⟩
  unfold apiDoubleEp
  rw [hcond, hslice, hfrom]
  simp

theorem C3_witness :
    ({ series := "Bones", season := "04", episode := "01",
       title := "E02", extension := "mkv" : ApiInfo }.title.toList
        = 'E' :: '0' :: '2' :: []) ∧
    apiDoubleEp { series := "Bones", season := "04", episode := "01",
                  title := "E02", extension := "mkv" } =
      { series := "Bones", season := "04", episode := "01" ++ "-" ++ String.mk ['0', '2'],
        title := pyStrip (String.mk []), extension := "mkv" } :=
  ⟨by decide,
    (C3_double_episode_merge
      { series := "Bones", season := "04", episode := "01",
        title := "E02", extension := "mkv" } '0' '2' []
      (by decide) (by decide) (by decide) (by decide)).1⟩

theorem C7_witness :
    tedLassoWorld.multi "Ted Lasso" = some ⟨true, some (.arr [tedLassoResult])⟩ ∧
    getSeriesIdSearch tedLassoWorld "Ted Lasso" none = .ok (44458, 1) :=
  ⟨rfl,
    (C7_search_zero_and_single tedLassoWorld {} "Ted Lasso"
          ⟨true, some (.arr [tedLassoResult])⟩ rfl).2
      tedLassoResult (.obj [("id", .num 44458), ("name", .str "Ted Lasso")]) 44458
      rfl (by simp [jSub, tedLassoResult]) (by simp [jSub]) none⟩

end Nielsen
